import Mathlib

/-!
# Verification of the moneybotsapi session/instrument core

A shallow embedding, in Lean 4, of the TypeScript functions of this
repository that carry its non-trivial behaviour:

* the instrument refresh pipeline (`src/api/instruments/refresh.ts`),
* the freshness oracle (`isRefreshRequired` and its cutoff computation),
* the TOTP generator (`src/api/user/totp.ts`),
* the Set-Cookie → Cookie conversion and the OMS / API session drivers
  (`src/api/user/sessionOMS.ts` and the API-session module),
* the login handler (`handleLogin`) with its session cache.

Conventions of the embedding:

* JavaScript strings are Lean `String`s; all string algorithms are defined
  over `List Char` and lifted at the boundary.  JavaScript string
  comparison, `split`, `trim`, decimal rendering (`String(n)`,
  `toString()`), `padStart` and `Number(...)` are embedded explicitly
  below; comments on each definition note where the embedding restricts
  the JavaScript behaviour (always in regions that the embedded callers
  cannot reach).
* Network and clock effects are passed as explicit environment values: a
  `fetch` becomes a record holding the response the network returned, and
  each function that performs I/O takes those records (and the current
  timestamp) as arguments and returns, besides its result, a trace of the
  calls it made.
* Machine numbers are `Nat`/`Int`/`ℚ` with explicit `% 2 ^ w` where the
  JavaScript code relies on wrap-around.
* Platform crypto (`crypto.subtle`'s HMAC-SHA1 and SHA-256) is not part of
  this repository; those primitives enter the embedding as explicit
  function parameters, and only the data flow around them is verified.
-/

/-! ## JavaScript string and number primitives -/

/-- The whitespace class used by JavaScript's `trim` and `\s`, restricted to
the ASCII whitespace characters (the only ones the embedded inputs can
contain). -/
def isJsSpace (c : Char) : Bool :=
  c = ' ' ∨ c = '\t' ∨ c = '\n' ∨ c = '\r' ∨ c = '\x0b' ∨ c = '\x0c'

/-- JavaScript `String.prototype.trim` on a character list. -/
def jsTrimChars (s : List Char) : List Char :=
  ((s.dropWhile isJsSpace).reverse.dropWhile isJsSpace).reverse

/-- JavaScript `String.prototype.trim`. -/
def jsTrim (s : String) : String :=
  ⟨jsTrimChars s.data⟩

/-- JavaScript `str.split(sep)` for a one-character separator: splits at every
occurrence, keeping empty fragments, and yields `[s]` when the separator is
absent (`"".split(sep) = [""]`). -/
def splitChar (sep : Char) : List Char → List (List Char)
  | [] => [[]]
  | c :: cs =>
    if c = sep then
      [] :: splitChar sep cs
    else
      match splitChar sep cs with
      | [] => [[c]]
      | f :: fs => (c :: f) :: fs

/-- A character `'0'`–`'9'`. -/
def isDigitCh (c : Char) : Bool :=
  48 ≤ c.toNat ∧ c.toNat ≤ 57

/-- The decimal digit character for `d < 10`. -/
def digitChar (d : Nat) : Char :=
  Char.ofNat (48 + d)

/-- Fuel-driven decimal rendering (the fuel makes the recursion structural so
that the kernel can evaluate it). -/
def natCharsAux : Nat → Nat → List Char
  | 0, _ => []
  | fuel + 1, n =>
    if n < 10 then [digitChar n]
    else natCharsAux fuel (n / 10) ++ [digitChar (n % 10)]

/-- JavaScript `String(n)` / `n.toString()` for a non-negative integer. -/
def natChars (n : Nat) : List Char :=
  natCharsAux (n + 1) n

/-- JavaScript `String(n).padStart(2, "0")`. -/
def pad2 (n : Nat) : List Char :=
  if n < 10 then '0' :: natChars n else natChars n

/-- Value of a list of decimal digit characters. -/
def decVal (s : List Char) : Nat :=
  s.foldl (fun a c => 10 * a + (c.toNat - 48)) 0

/-- JavaScript `Number(s)`, embedded for the inputs that occur here: after
trimming, the empty string is `0` and a non-empty all-digit string is its
decimal value; anything else is `NaN` (`none`).  (Signs, fractions, hex and
exponents cannot appear in the fixed-width `YYYY-MM-DD HH:mm:ss` fragments
this is applied to.) -/
def jsNumber (s : List Char) : Option Nat :=
  let t := jsTrimChars s
  if t = [] then some 0
  else if t.all isDigitCh then some (decVal t) else none

/-- JavaScript `a < b` on strings: lexicographic comparison of code units
(code points, for the ASCII data compared here). -/
def jsStrLtChars : List Char → List Char → Bool
  | _, [] => false
  | [], _ :: _ => true
  | a :: as, b :: bs =>
    if a.toNat < b.toNat then true
    else if b.toNat < a.toNat then false
    else jsStrLtChars as bs

/-- JavaScript `a < b` on strings. -/
def jsStrLt (a b : String) : Bool :=
  jsStrLtChars a.data b.data

/-- JavaScript `a.includes(b)` (substring test). -/
def jsIncludes (a b : String) : Bool :=
  decide (b.data <:+: a.data)

/-! ## `src/api/_shared/time.ts` — timestamp formatting

`getISTTimestamp` reads the real clock, shifts it by +5:30 and formats the
components; the clock is an effect, so the embedding takes the components as
arguments and embeds only the formatting (template
`${year}-${month}-${day} ${hours}:${minutes}:${seconds}` with two-digit
padding on everything but the year). -/

/-- The string `getISTTimestamp` produces from IST clock components. -/
def formatISTTimestamp (y mo d h mi s : Nat) : String :=
  ⟨natChars y ++ '-' :: pad2 mo ++ '-' :: pad2 d ++
    ' ' :: pad2 h ++ ':' :: pad2 mi ++ ':' :: pad2 s⟩

/-! ## Freshness oracle (`isRefreshRequired` and its cutoff) -/

/-- Length of a Gregorian month. -/
def daysInMonth (y m : Nat) : Nat :=
  if m = 2 then
    if y % 4 = 0 ∧ (y % 100 ≠ 0 ∨ y % 400 = 0) then 29 else 28
  else if m = 4 ∨ m = 6 ∨ m = 9 ∨ m = 11 then 30
  else 31

/-- Whether `(y, m, d)` is a calendar date (with `1 ≤ y`, so the
`setDate(getDate() - 1)` step below never leaves the positive years). -/
def validCivil (y m d : Nat) : Bool :=
  1 ≤ y ∧ 1 ≤ m ∧ m ≤ 12 ∧ 1 ≤ d ∧ d ≤ daysInMonth y m

/-- The previous calendar day.  This is what
`cutoffDate.setDate(cutoffDate.getDate() - 1)` computes on a `Date` built
from a valid `(y, m, d)`. -/
def prevCivil (y m d : Nat) : Nat × Nat × Nat :=
  if 1 < d then (y, m, d - 1)
  else if 1 < m then (y, m - 1, daysInMonth y (m - 1))
  else (y - 1, 12, 31)

/-- `${cutoffYear}-${cutoffMonth}-${cutoffDay} 08:30:00` (month and day
two-digit padded, year unpadded). -/
def formatCutoff : Nat × Nat × Nat → String
  | (y, m, d) =>
    ⟨natChars y ++ '-' :: pad2 m ++ '-' :: pad2 d ++
      " 08:30:00".data⟩

/-- Embedding of `getInstrumentsRefreshCutoff` (the helper of
`isRefreshRequired`).  The input is the string `getISTTimestamp()` returned.
`Number(...)` conversions are `jsNumber`; `new Date(year, month - 1, day)`
followed by `setDate(getDate() - 1)` is embedded for valid calendar dates
(the only ones `getISTTimestamp` emits) as `prevCivil`; if a component fails
to parse or the date is out of range — unreachable from `getISTTimestamp` —
the embedding returns an explicit `.error` (treated as stale by
`isRefreshRequired`, the direction the source's catch-all also takes). -/
def getInstrumentsRefreshCutoff (currentIST : String) : Except String String :=
  let parts := splitChar ' ' currentIST.data
  if parts.length ≠ 2 then .error "Invalid timestamp format"
  else
    let datePart := (parts.get? 0).getD []
    let timePart := (parts.get? 1).getD []
    if datePart = [] ∨ timePart = [] then .error "Invalid timestamp format"
    else
      let dateParts := (splitChar '-' datePart).map jsNumber
      let timeParts := (splitChar ':' timePart).map jsNumber
      if dateParts.length ≠ 3 ∨ timeParts.length < 2 then
        .error "Invalid timestamp format"
      else
        let year := ((dateParts.get? 0).getD (some 0))
        let month := ((dateParts.get? 1).getD (some 0))
        let day := ((dateParts.get? 2).getD (some 0))
        let hours := ((timeParts.get? 0).getD (some 0))
        let minutes := ((timeParts.get? 1).getD (some 0))
        -- if current time-of-day is before 08:30, use the previous day
        -- (NaN comparisons are false in JavaScript, so a `none` here
        -- selects the "today" branch, as the source would)
        let before : Bool :=
          match hours, minutes with
          | some h, some mi => decide (h < 8) || (decide (h = 8) && decide (mi < 30))
          | some h, none => decide (h < 8)
          | none, _ => false
        match year, month, day with
        | some y, some mo, some d =>
          if validCivil y mo d then
            .ok (formatCutoff (if before then prevCivil y mo d else (y, mo, d)))
          else .error "unmodelled Date normalization"
        | _, _, _ => .error "unmodelled Date normalization"

/-- Embedding of `getLatestUpdateTime`: the `MAX(updated_at)` the database
returned (`none` for SQL `NULL`), with a thrown query error (`dbFails`)
caught and turned into `null`, and `result?.latest || null` collapsing the
empty string to `null`. -/
def getLatestUpdateTime (latest : Option String) (dbFails : Bool) :
    Option String :=
  if dbFails then none
  else match latest with
    | none => none
    | some u => if u = "" then none else some u

/-- Embedding of `isRefreshRequired`.  `currentIST` is the value
`getISTTimestamp()` returned, `latest`/`dbFails` feed the database query.
The source's outer `catch` maps any thrown error to `true`. -/
def isRefreshRequired (currentIST : String) (latest : Option String)
    (dbFails : Bool) : Bool :=
  match getInstrumentsRefreshCutoff currentIST with
  | .error _ => true
  | .ok cutoff =>
    match getLatestUpdateTime latest dbFails with
    | none => true
    | some latestUpdate =>
      if jsStrLt latestUpdate cutoff then true else false

/-! ## `src/api/instruments/refresh.ts` — the instrument refresher -/

/-- A character matching JavaScript's `\w` (`[A-Za-z0-9_]`). -/
def isWordCh (c : Char) : Bool :=
  (65 ≤ c.toNat ∧ c.toNat ≤ 90) ∨ (97 ≤ c.toNat ∧ c.toNat ≤ 122) ∨
    (48 ≤ c.toNat ∧ c.toNat ≤ 57) ∨ c = '_'

/-- JavaScript `parseInt(s)` in base 10 (the feed's numeric fields are plain
decimals; the `0x` radix autodetection and exotic whitespace cannot occur
here): skip leading whitespace, optional sign, then a non-empty digit
prefix; `none` is `NaN`. -/
def jsParseInt (s : String) : Option Int :=
  let t := s.data.dropWhile isJsSpace
  let (sign, t) : Int × List Char :=
    match t with
    | '-' :: r => (-1, r)
    | '+' :: r => (1, r)
    | _ => (1, t)
  let digits := t.takeWhile isDigitCh
  if digits = [] then none else some (sign * (decVal digits : Nat))

/-- JavaScript `parseFloat(s)` restricted to plain decimal literals (optional
sign, digits, optional fraction — the shapes in the instrument feed);
JavaScript doubles are modelled as exact rationals, and `none` is `NaN`.
No verified claim depends on these numeric values. -/
def jsParseFloat (s : String) : Option ℚ :=
  let t := s.data.dropWhile isJsSpace
  let (sign, t) : ℚ × List Char :=
    match t with
    | '-' :: r => (-1, r)
    | '+' :: r => (1, r)
    | _ => (1, t)
  let intPart := t.takeWhile isDigitCh
  let rest := t.drop intPart.length
  let fracPart :=
    match rest with
    | '.' :: r => r.takeWhile isDigitCh
    | _ => []
  if intPart = [] ∧ fracPart = [] then none
  else
    some (sign * ((decVal intPart : ℚ) +
      (decVal fracPart : ℚ) / ((10 : ℚ) ^ fracPart.length)))

/-- `x || 0` applied to a `parseInt`/`parseFloat` result: `NaN` (and `0`,
which `||` also replaces — by `0`) becomes `0`. -/
def jsOrZeroI (o : Option Int) : Int := o.getD 0

/-- `x || 0` on a float parse result. -/
def jsOrZeroQ (o : Option ℚ) : ℚ := o.getD 0

/-- `value.replace(/^"|"$/g, "")`: drop one leading and one trailing double
quote (each if present; a lone `"` is consumed by the `^` alternative
only). -/
def stripQuotes (s : List Char) : List Char :=
  let s1 := match s with | '"' :: r => r | _ => s
  match s1.reverse with
  | '"' :: r => r.reverse
  | _ => s1

/-- A parsed CSV row: the `Record<string, string>` built by `parseCSV`,
as the header/value assignments in source order (a later assignment to the
same header overwrites, so lookup searches from the right). -/
abbrev RowObj := List (String × String)

/-- Property read `row[h] ?? ""`-style: the value of the *last* assignment
to `h` (JavaScript object semantics), or `""` for a header never
assigned — `transformToDBRecord` accesses only headers that `parseCSV`
assigned, and its `|| "..."` fallbacks make the default irrelevant. -/
def rowGet (row : RowObj) (h : String) : String :=
  match (List.reverse row).find? (fun p => p.1 = h) with
  | some p => p.2
  | none => ""

/-- One line of `parseCSV`: zip the headers with the (quote-stripped,
`undefined`-defaulted) values. -/
def parseCSVRow (headers : List (List Char)) (values : List (List Char)) :
    RowObj :=
  headers.map (fun h =>
    (⟨h⟩, ⟨stripQuotes (((values.get? (headers.indexOf h))).getD [])⟩))

/-- Embedding of `parseCSV`: trim, split into lines, require at least one
data row, split the header line on commas, and build one record per
remaining line.  The thrown `Error` is the `.error` case. -/
def parseCSV (csvText : String) : Except String (List RowObj) :=
  let lines := splitChar '\n' (jsTrimChars csvText.data)
  if lines.length < 2 then .error "Invalid CSV format: no data rows"
  else
    let headers := splitChar ',' ((lines.get? 0).getD [])
    .ok ((lines.drop 1).map (fun line =>
      parseCSVRow headers (splitChar ',' line)))

/-- The database record `transformToDBRecord` builds from a CSV row. -/
structure InstrRow where
  instrument_token : Int
  exchange_token : Int
  tradingsymbol : String
  name : Option String
  last_price : ℚ
  expiry : Option String
  strike : ℚ
  tick_size : ℚ
  lot_size : Int
  instrument_type : Option String
  segment : Option String
  exchange : String
  updated_at : String
  deriving DecidableEq, Repr

/-- `row.f || "0"` — the parse-source fallback for numeric fields. -/
def orZeroStr (s : String) : String := if s = "" then "0" else s

/-- `row.f || null` — empty string becomes SQL `NULL`. -/
def orNullStr (s : String) : Option String := if s = "" then none else some s

/-- Embedding of `transformToDBRecord`. -/
def transformToDBRecord (row : RowObj) (updatedAt : String) : InstrRow where
  instrument_token := jsOrZeroI (jsParseInt (orZeroStr (rowGet row "instrument_token")))
  exchange_token := jsOrZeroI (jsParseInt (orZeroStr (rowGet row "exchange_token")))
  tradingsymbol := rowGet row "tradingsymbol"
  name := orNullStr (rowGet row "name")
  last_price := jsOrZeroQ (jsParseFloat (orZeroStr (rowGet row "last_price")))
  expiry :=
    let e := rowGet row "expiry"
    if e ≠ "" ∧ e ≠ "0" then some e else none
  strike := jsOrZeroQ (jsParseFloat (orZeroStr (rowGet row "strike")))
  tick_size := jsOrZeroQ (jsParseFloat (orZeroStr (rowGet row "tick_size")))
  lot_size := jsOrZeroI (jsParseInt (orZeroStr (rowGet row "lot_size")))
  instrument_type := orNullStr (rowGet row "instrument_type")
  segment := orNullStr (rowGet row "segment")
  exchange := rowGet row "exchange"
  updated_at := updatedAt

/-- The `kite_instruments` SQLite store: the committed rows plus, while a
transaction is open, the snapshot `ROLLBACK` would restore.  A statement
outside a transaction auto-commits; a failed statement changes nothing. -/
structure InstrDB where
  rows : List InstrRow
  txn : Option (List InstrRow)
  deriving DecidableEq, Repr

/-- `db.run("DELETE FROM kite_instruments")`. -/
def dbDeleteAll (db : InstrDB) : InstrDB := { db with rows := [] }

/-- `db.run("BEGIN TRANSACTION")`. -/
def dbBegin (db : InstrDB) : InstrDB := { db with txn := some db.rows }

/-- `insertStmt.run(...)`. -/
def dbInsert (r : InstrRow) (db : InstrDB) : InstrDB :=
  { db with rows := db.rows ++ [r] }

/-- `db.run("COMMIT")`. -/
def dbCommit (db : InstrDB) : InstrDB := { db with txn := none }

/-- `db.run("ROLLBACK")`: restore the snapshot taken at `BEGIN`. -/
def dbRollback (db : InstrDB) : InstrDB :=
  { rows := db.txn.getD db.rows, txn := none }

/-- The environment of one `performInstrumentsRefresh` run: what the
network returned and which statements, if any, the database throws on. -/
structure RefreshEnv where
  /-- `fetch` itself threw (network failure); caught by the outer catch. -/
  fetchThrows : Bool
  /-- The thrown error's `message`. -/
  fetchThrowMsg : String
  /-- `response.ok` of the feed fetch. -/
  fetchOk : Bool
  /-- `response.statusText`. -/
  statusText : String
  /-- `await response.text()`. -/
  csvText : String
  /-- The initial `DELETE` throws. -/
  deleteFails : Bool
  /-- Its error `message`. -/
  deleteMsg : String
  /-- The index (into the insert sequence) of the first failing insert,
  if any insert fails. -/
  insertFailsAt : Option Nat
  /-- Its error `message`. -/
  insertMsg : String
  /-- The value `getISTTimestamp()` returned for this run. -/
  ts : String
  deriving Repr

/-- `performInstrumentsRefresh`'s result object. -/
structure RefreshResult where
  success : Bool
  count : Nat
  error : Option String
  deriving DecidableEq, Repr

/-- The insert loop: runs the prepared insert for each record in order,
counting, until done or until the environment makes one throw; on a throw,
returns the database as it stands inside the open transaction. -/
def insertLoop (records : List InstrRow) (failAt : Option Nat) (i : Nat)
    (db : InstrDB) : Except InstrDB (Nat × InstrDB) :=
  match records with
  | [] => .ok (i, db)
  | r :: rest =>
    if failAt = some i then .error db
    else insertLoop rest failAt (i + 1) (dbInsert r db)

/-- Embedding of `performInstrumentsRefresh`, returning the result object
and the final database state.  Mirrors the source's order: fetch → parse →
timestamp → transform → `DELETE` (outside any transaction) → `BEGIN` →
inserts → `COMMIT`, with `ROLLBACK` on an insert error. -/
def performInstrumentsRefresh (env : RefreshEnv) (db0 : InstrDB) :
    RefreshResult × InstrDB :=
  if env.fetchThrows then
    (⟨false, 0, some env.fetchThrowMsg⟩, db0)
  else if ¬ env.fetchOk then
    (⟨false, 0, some ("Failed to fetch instruments: " ++ env.statusText)⟩, db0)
  else
    match parseCSV env.csvText with
    | .error e => (⟨false, 0, some e⟩, db0)
    | .ok csvData =>
      let dbRecords := csvData.map (fun row => transformToDBRecord row env.ts)
      if env.deleteFails then
        (⟨false, 0, some ("Failed to truncate table: " ++ env.deleteMsg)⟩, db0)
      else
        let db1 := dbDeleteAll db0
        let db2 := dbBegin db1
        match insertLoop dbRecords env.insertFailsAt 0 db2 with
        | .error dbAt =>
          (⟨false, 0, some ("Failed to insert data: " ++ env.insertMsg)⟩,
            dbRollback dbAt)
        | .ok (count, dbDone) =>
          (⟨true, count, none⟩, dbCommit dbDone)

/-! ## `src/api/user/totp.ts` — TOTP generation

`hmacSha1` delegates to the platform's `crypto.subtle`; the embedding takes
that primitive as an explicit function on byte lists (only its 20-byte
output ever matters, and no verified claim depends on its internals). -/

/-- The base32 alphabet of `base32Decode`. -/
def base32Chars : List Char := "ABCDEFGHIJKLMNOPQRSTUVWXYZ234567".data

/-- JavaScript `toUpperCase`, restricted to ASCII (non-ASCII case mapping
cannot produce alphabet characters relevant here, with the single exotic
exception of multi-character expansions, which this embedding maps to
themselves — and which are rejected on both readings). -/
def jsToUpperChar (c : Char) : Char :=
  if 97 ≤ c.toNat ∧ c.toNat ≤ 122 then Char.ofNat (c.toNat - 32) else c

/-- `s.replace(/=+$/, "")`: strip all trailing `=` padding. -/
def stripTrailingEq (s : List Char) : List Char :=
  (s.reverse.dropWhile (fun c => c = '=')).reverse

/-- The `cleanSecret` of `base32Decode`:
`secret.toUpperCase().replace(/=+$/, "")`. -/
def cleanSecretOf (secret : String) : List Char :=
  stripTrailingEq (secret.data.map jsToUpperChar)

/-- `val.toString(2).padStart(5, "0")` for a 5-bit value. -/
def bin5 (v : Nat) : List Char :=
  [if v / 16 % 2 = 1 then '1' else '0',
   if v / 8 % 2 = 1 then '1' else '0',
   if v / 4 % 2 = 1 then '1' else '0',
   if v / 2 % 2 = 1 then '1' else '0',
   if v % 2 = 1 then '1' else '0']

/-- `parseInt(bits, 2)` on a string of `'0'`/`'1'` characters. -/
def binValCh (s : List Char) : Nat :=
  s.foldl (fun a c => 2 * a + (if c = '1' then 1 else 0)) 0

/-- Embedding of `base32Decode`: uppercase, strip `=` padding, map each
character through the alphabet (throwing on a character outside it), build
the concatenated bit string, and read off `⌊bits/8⌋` bytes. -/
def base32Decode (secret : String) : Except String (List Nat) :=
  let clean := cleanSecretOf secret
  if clean.all (fun c => c ∈ base32Chars) then
    let bits := clean.flatMap (fun c => bin5 (base32Chars.indexOf c))
    .ok ((List.range (bits.length / 8)).map
      (fun i => binValCh ((bits.drop (8 * i)).take 8)))
  else .error "Invalid base32 character"

/-- The 8-byte big-endian counter array, exactly as the source's
`for (let i = 7; i >= 0; i--)` loop fills it (`& 0xff` on a non-negative
JavaScript integer is `% 256`; `Math.floor(t / 256)` is integer
division). -/
def counterBytesJs (counter : Nat) : List Nat :=
  let t7 := counter
  let b7 := t7 % 256
  let t6 := t7 / 256
  let b6 := t6 % 256
  let t5 := t6 / 256
  let b5 := t5 % 256
  let t4 := t5 / 256
  let b4 := t4 % 256
  let t3 := t4 / 256
  let b3 := t3 % 256
  let t2 := t3 / 256
  let b2 := t2 % 256
  let t1 := t2 / 256
  let b1 := t1 % 256
  let t0 := t1 / 256
  let b0 := t0 % 256
  [b0, b1, b2, b3, b4, b5, b6, b7]

/-- `s.padStart(n, "0")`. -/
def padStartZeros (n : Nat) (s : List Char) : List Char :=
  if s.length < n then List.replicate (n - s.length) '0' ++ s else s

/-- Embedding of `generateTotpValue`.  `hmacSha1` is the platform crypto
primitive; `dateNowMs` is what `Date.now()` returned; the default
`timeStep` at every call site is `30`.  The thrown base32 error is the
`.error` case. -/
def generateTotpValue (hmacSha1 : List Nat → List Nat → List Nat)
    (totpSecret : String) (timeStep : Nat) (dateNowMs : Nat) :
    Except String String :=
  let epoch := dateNowMs / 1000
  let counter := epoch / timeStep
  let counterBytes := counterBytesJs counter
  match base32Decode totpSecret with
  | .error e => .error e
  | .ok key =>
    let hash := hmacSha1 key counterBytes
    let offset := (hash.getD (hash.length - 1) 0) &&& 0x0f
    let binary :=
      (((hash.getD offset 0) &&& 0x7f) <<< 24) |||
      (((hash.getD (offset + 1) 0) &&& 0xff) <<< 16) |||
      (((hash.getD (offset + 2) 0) &&& 0xff) <<< 8) |||
      ((hash.getD (offset + 3) 0) &&& 0xff)
    let otp := binary % 1000000
    .ok ⟨padStartZeros 6 (natChars otp)⟩

/-- The RFC 4226/6238 code, written from the specification's words: counter
`⌊unix_time / step⌋` as 8 big-endian bytes, HMAC-SHA1 over them keyed by
the decoded secret, dynamic truncation (low 4 bits of the final hash byte
as offset, 4 bytes there masked to 31 bits), reduced mod 1,000,000, and
zero-padded to 6 digits.  This is the specification-side definition that
`generateTotpValue` is compared against; the base32 decoding of the secret
is the shared `base32Decode` (the specification fixes no decoding
algorithm of its own), and out-of-range indexing defaults to `0` exactly
as the source's `?? 0` does. -/
def rfcTotpCode (hmacSha1 : List Nat → List Nat → List Nat)
    (key : List Nat) (step epochSeconds : Nat) : String :=
  let counter := epochSeconds / step
  let msg :=
    [counter / 256 ^ 7 % 256, counter / 256 ^ 6 % 256,
     counter / 256 ^ 5 % 256, counter / 256 ^ 4 % 256,
     counter / 256 ^ 3 % 256, counter / 256 ^ 2 % 256,
     counter / 256 % 256, counter % 256]
  let hash := hmacSha1 key msg
  let offset := (hash.getD (hash.length - 1) 0) % 16
  let binary :=
    (hash.getD offset 0 % 128) * 2 ^ 24 +
    (hash.getD (offset + 1) 0 % 256) * 2 ^ 16 +
    (hash.getD (offset + 2) 0 % 256) * 2 ^ 8 +
    hash.getD (offset + 3) 0 % 256
  ⟨padStartZeros 6 (natChars (binary % 1000000))⟩

/-! ## Set-Cookie → Cookie conversion (`convertSetCookieToCookie`)

The same function appears twice in the source (in the API-session module
and inline in `generateOMSSession`), with identical text. -/

/-- The lookahead `(?=\s*\w+=)` of the split regex, applied to the text
after a comma. -/
def cookieLookahead (rest : List Char) : Bool :=
  let r1 := rest.dropWhile isJsSpace
  let w := r1.takeWhile isWordCh
  decide (w ≠ []) && ((r1.drop w.length).head? == some '=')

/-- `setCookie.split(/,(?=\s*\w+=)/)`: split at every comma whose lookahead
matches, keeping everything else intact. -/
def splitSetCookie : List Char → List Char → List (List Char)
  | [], acc => [acc.reverse]
  | c :: rest, acc =>
    if c = ',' ∧ cookieLookahead rest then
      acc.reverse :: splitSetCookie rest []
    else splitSetCookie rest (c :: acc)

/-- Embedding of `convertSetCookieToCookie`: split on attribute-aware
commas, keep each fragment's part before its first semicolon, trim, and
join with `"; "`. -/
def convertSetCookieToCookie (setCookie : String) : String :=
  let cookies := (splitSetCookie setCookie.data []).map
    (fun cookie => jsTrimChars (cookie.takeWhile (fun c => c ≠ ';')))
  String.intercalate "; " (cookies.map (fun l => (⟨l⟩ : String)))

/-- `[loginCookies, twofaCookies].filter(Boolean).join(", ")`. -/
def joinRawCookies (l : List String) : String :=
  String.intercalate ", " (l.filter (fun s => s ≠ ""))

/-! ## `src/api/_shared/responses.ts` — the response shapes -/

/-- The `ErrorType` union of `responses.ts`. -/
inductive RespErrorType
  | InputException
  | AuthenticationException
  | DatabaseException
  | ValidationException
  | NotFoundException
  | InternalException
  | MethodNotAllowed
  deriving DecidableEq, Repr

/-- The fields of the API session payload that `handleLogin` reads; `rest`
stands for the remaining fields of the broker's `data` object, carried
opaquely. -/
structure ApiSessionData where
  user_id : String
  api_key : String
  access_token : String
  rest : String
  deriving DecidableEq, Repr

/-- The `OMSSessionResult` interface of `sessionOMS.ts`. -/
structure OMSSessionResult where
  success : Bool
  user_id : Option String
  enctoken : Option String
  kf_session : Option String
  public_token : Option String
  login_time : Option String
  raw_cookies : Option String
  error : Option String
  deriving DecidableEq, Repr

/-- The merged profile + OMS response object `handleLogin` builds; the
profile fields (`user_type`, `email`, …) are carried as one opaque
`profile` blob, since no verified claim reads them individually. -/
structure OmsMergedResponse where
  user_id : Option String
  profile : String
  enctoken : Option String
  kf_session : Option String
  public_token : Option String
  login_time : Option String
  deriving DecidableEq, Repr

/-- The JSON value placed in a success response's `data` field:
either `JSON.parse` of a stored string, a fresh API session payload, or
the merged OMS response. -/
inductive RespData
  | parsedJson (raw : String)
  | apiSession (a : ApiSessionData)
  | omsMerged (o : OmsMergedResponse)
  deriving DecidableEq, Repr

/-- The body of a `responses.ts` response. -/
inductive RespBody
  | success (data : RespData)
  | failure (error_type : RespErrorType) (message : String)
  deriving DecidableEq, Repr

/-- An HTTP response as `responses.ts` builds it. -/
structure HttpResponse where
  status : Nat
  body : RespBody
  deriving DecidableEq, Repr

/-- `successResponse(data)` (default status 200). -/
def successResponse (data : RespData) : HttpResponse :=
  ⟨200, .success data⟩

/-- `errorResponse(error_type, message, statusCode)`. -/
def errorResponse (t : RespErrorType) (message : String) (statusCode : Nat) :
    HttpResponse :=
  ⟨statusCode, .failure t message⟩

/-- `inputError`. -/
def inputError (message : String) : HttpResponse :=
  errorResponse .InputException message 400

/-- `authError`. -/
def authError (message : String) : HttpResponse :=
  errorResponse .AuthenticationException message 401

/-- `dbError`. -/
def dbError (message : String) : HttpResponse :=
  errorResponse .DatabaseException message 500

/-! ## `sessionOMS.ts` — the OMS session driver -/

/-- The upstream calls a session run can make, in order. -/
inductive NetCall
  | login
  | twofa
  | connect
  | connectFinish
  | tokenExchange
  deriving DecidableEq, Repr

/-- What one `fetch` returned: its status, its `Set-Cookie` header (`none`
when absent) and its text body. -/
structure FetchResp where
  status : Nat
  setCookie : Option String
  body : String
  deriving DecidableEq, Repr

/-- `response.ok`. -/
def jsOk (status : Nat) : Bool := 200 ≤ status ∧ status ≤ 299

/-- The parsed login response body, as the source reads it after the cast
to `KiteLoginResponse`: the `status` field and the three `data` fields it
destructures, plus `stringified`, the `JSON.stringify` rendering of the
whole parsed value (carried as data — the embedding does not re-implement
a JSON engine). -/
structure LoginJson where
  status : String
  user_id : String
  request_id : String
  twofa_type : String
  stringified : String
  deriving DecidableEq, Repr

/-- The parsed 2FA response body (same conventions). -/
structure TwofaJson where
  status : String
  stringified : String
  deriving DecidableEq, Repr

/-- The environment of one `generateOMSSession` run: what the two upstream
endpoints answered.  A `some` in `loginThrows`/`twofaThrows` means the
`fetch` itself threw with that message; a `none` in `loginJson`/`twofaJson`
means `response.json()` threw (message alongside). -/
structure OMSEnv where
  loginThrows : Option String
  loginResp : FetchResp
  loginJson : Option LoginJson
  loginJsonErrMsg : String
  twofaThrows : Option String
  twofaResp : FetchResp
  twofaJson : Option TwofaJson
  twofaJsonErrMsg : String
  /-- `getISTTimestamp()` during this run (the `login_time`). -/
  nowIST : String
  deriving Repr

/-- A failed `OMSSessionResult`. -/
def omsFail (e : String) : OMSSessionResult :=
  ⟨false, none, none, none, none, none, none, some e⟩

/-- Scan for the first occurrence of `pat`; on a hit, capture the
(non-empty) run of non-semicolon characters after it. -/
def scanCapture (pat : List Char) : List Char → Option String
  | [] => none
  | c :: rest =>
    if pat.isPrefixOf (c :: rest) then
      let v := ((c :: rest).drop pat.length).takeWhile (fun ch => ch ≠ ';')
      if v = [] then none else some ⟨v⟩
    else scanCapture pat rest

/-- The first match of the regex `` `${name}=([^;]+)` ``. -/
def parseCookie (cookieString : String) (name : String) : Option String :=
  scanCapture (name.data ++ ['=']) cookieString.data

/-- Embedding of `generateOMSSession`, returning the result and the trace
of upstream calls made.  The TOTP computation uses the embedded
`generateTotpValue` (with the platform HMAC passed through and the default
30-second step). -/
def generateOMSSession (hmacSha1 : List Nat → List Nat → List Nat)
    (dateNowMs : Nat) (env : OMSEnv)
    (_userId _password : String) (totpSecret : String) :
    OMSSessionResult × List NetCall :=
  match env.loginThrows with
  | some m => (omsFail m, [.login])
  | none =>
    let r := env.loginResp
    if ¬ jsOk r.status then
      (omsFail ("Login failed [" ++ (⟨natChars r.status⟩ : String) ++ "]: " ++ r.body),
        [.login])
    else
      let loginCookies := r.setCookie.getD ""
      match env.loginJson with
      | none => (omsFail env.loginJsonErrMsg, [.login])
      | some lj =>
        if lj.status ≠ "success" then (omsFail lj.stringified, [.login])
        else
          match generateTotpValue hmacSha1 totpSecret 30 dateNowMs with
          | .error m => (omsFail m, [.login])
          | .ok _twofaValue =>
            match env.twofaThrows with
            | some m => (omsFail m, [.login, .twofa])
            | none =>
              let t := env.twofaResp
              if ¬ jsOk t.status then
                (omsFail ("2FA failed [" ++ (⟨natChars t.status⟩ : String) ++ "]: " ++ t.body),
                  [.login, .twofa])
              else
                match env.twofaJson with
                | none => (omsFail env.twofaJsonErrMsg, [.login, .twofa])
                | some tj =>
                  if tj.status ≠ "success" then
                    (omsFail tj.stringified, [.login, .twofa])
                  else
                    let twofaCookies := t.setCookie.getD ""
                    let allCookies := joinRawCookies [loginCookies, twofaCookies]
                    ({ success := true,
                       user_id := some lj.user_id,
                       enctoken := parseCookie twofaCookies "enctoken",
                       kf_session := parseCookie loginCookies "kf_session",
                       public_token := parseCookie twofaCookies "public_token",
                       login_time := some env.nowIST,
                       raw_cookies := some allCookies,
                       error := none }, [.login, .twofa])

/-- Embedding of `isEnctokenValid`: the profile probe's status (`none` when
the `fetch` threw, which the source catches into `false`); valid exactly on
status 200. -/
def isEnctokenValid (probeStatus : Option Nat) : Bool :=
  probeStatus = some 200

/-! ## The API session driver (`generateAPISession` and its steps) -/

/-- What a no-follow (`redirect: "manual"`) GET answered: whether the
`fetch` threw, the status, and the `Location` header (`none` when
absent). -/
structure RedirectResp where
  threw : Bool
  status : Nat
  location : Option String
  deriving DecidableEq, Repr

/-- What the token-exchange POST answered: whether it threw, its status,
and the `data` object of its JSON body (`none` when the body was not JSON
or carried no `data`). -/
structure TokenResp where
  threw : Bool
  status : Nat
  data : Option ApiSessionData
  deriving DecidableEq, Repr

/-- `new URL(location, base).searchParams.get(name)`: the value of the
first `name=` (or bare `name`) entry of the query string, `none` when
absent.  (Percent decoding is not modelled; no verified claim depends on
it.) -/
def getQueryParam (url : String) (name : String) : Option String :=
  let afterQ := url.data.dropWhile (fun c => c ≠ '?')
  match afterQ with
  | [] => none
  | _ :: q =>
    let entries := splitChar '&' (q.takeWhile (fun c => c ≠ '#'))
    match entries.find? (fun e =>
        (name.data ++ ['=']).isPrefixOf e ∨ e = name.data) with
    | none => none
    | some e => some ⟨e.drop (name.length + 1)⟩

/-- Embedding of `getSessionID` given the connect response: `null` unless
the response is a 302 with a `Location` carrying a (truthy) `sess_id`. -/
def getSessionID (resp : RedirectResp) : Option String :=
  if resp.threw then none
  else if resp.status ≠ 302 then none
  else
    match resp.location with
    | none => none
    | some loc =>
      match getQueryParam loc "sess_id" with
      | none => none
      | some v => if v = "" then none else some v

/-- Embedding of `getRequestToken` given the connect/finish response (same
shape, `request_token` parameter). -/
def getRequestToken (resp : RedirectResp) : Option String :=
  if resp.threw then none
  else if resp.status ≠ 302 then none
  else
    match resp.location with
    | none => none
    | some loc =>
      match getQueryParam loc "request_token" with
      | none => none
      | some v => if v = "" then none else some v

/-- Embedding of `generateChecksum`:
SHA-256-hex of `api_key + request_token + api_secret`, with the platform's
SHA-256 passed as a parameter. -/
def generateChecksum (sha256Hex : String → String)
    (apiKey requestToken apiSecret : String) : String :=
  sha256Hex (apiKey ++ requestToken ++ apiSecret)

/-- Embedding of `generateSessionToken` given the token-exchange response:
`null` on a throw or a non-200; otherwise the body's `data`. -/
def generateSessionToken (resp : TokenResp) : Option ApiSessionData :=
  if resp.threw then none
  else if resp.status ≠ 200 then none
  else resp.data

/-- The result object of `generateAPISession` (its four possible shapes
folded into one record, as the TypeScript union does). -/
structure APIResult where
  success : Bool
  error : Option String
  oms_session : Option OMSSessionResult
  api_session : Option ApiSessionData
  deriving DecidableEq, Repr

/-- The environment of one session-generation run: the OMS round trips
plus the three API-handshake answers. -/
structure SessionEnv where
  omsEnv : OMSEnv
  connectResp : RedirectResp
  finishResp : RedirectResp
  tokenResp : TokenResp
  deriving Repr

/-- `x || "default"` on an optional string (JavaScript `||`: `undefined`
and `""` both fall through). -/
def jsOrDefault (o : Option String) (d : String) : String :=
  match o with
  | some s => if s = "" then d else s
  | none => d

/-- Embedding of `generateAPISession`, returning the result object and the
full trace of upstream calls (the OMS driver's, then each handshake call
actually issued). -/
def generateAPISession (hmacSha1 : List Nat → List Nat → List Nat)
    (sha256Hex : String → String) (dateNowMs : Nat) (env : SessionEnv)
    (userId password totpSecret : String) (apiKey apiSecret : String) :
    APIResult × List NetCall :=
  let (omsResult, calls0) :=
    generateOMSSession hmacSha1 dateNowMs env.omsEnv userId password totpSecret
  if ¬ omsResult.success then
    (⟨false, some (jsOrDefault omsResult.error "Failed to generate OMS session"),
      none, none⟩, calls0)
  else
    let _cookies :=
      match omsResult.raw_cookies with
      | some rc => if rc ≠ "" then convertSetCookieToCookie rc else ""
      | none => ""
    let calls1 := calls0 ++ [NetCall.connect]
    match getSessionID env.connectResp with
    | none => (⟨false, some "Failed to get session ID", none, none⟩, calls1)
    | some sessId =>
      let calls2 := calls1 ++ [NetCall.connectFinish]
      match getRequestToken env.finishResp with
      | none => (⟨false, some "Failed to get request token", none, none⟩, calls2)
      | some requestToken =>
        let _checksum := generateChecksum sha256Hex apiKey requestToken apiSecret
        let _sessId := sessId
        let calls3 := calls2 ++ [NetCall.tokenExchange]
        match generateSessionToken env.tokenResp with
        | none =>
          (⟨false, some "Failed to generate session token", none, none⟩, calls3)
        | some d => (⟨true, none, some omsResult, some d⟩, calls3)

/-- The union `generateSession` returns: the plain OMS result, or the API
result object. -/
inductive GenSessionResult
  | oms (r : OMSSessionResult)
  | api (r : APIResult)
  deriving DecidableEq, Repr

/-- `sessionResult.success`. -/
def GenSessionResult.success : GenSessionResult → Bool
  | .oms r => r.success
  | .api r => r.success

/-- `sessionResult.error`. -/
def GenSessionResult.error : GenSessionResult → Option String
  | .oms r => r.error
  | .api r => r.error

/-- JavaScript truthiness of an optional string. -/
def truthy (o : Option String) : Bool :=
  match o with
  | some s => s ≠ ""
  | none => false

/-- Embedding of `generateSession` (session.ts): full API session when both
API credentials are (truthily) present, OMS-only otherwise. -/
def generateSession (hmacSha1 : List Nat → List Nat → List Nat)
    (sha256Hex : String → String) (dateNowMs : Nat) (env : SessionEnv)
    (userId password totpSecret : String) (apiKey apiSecret : Option String) :
    GenSessionResult × List NetCall :=
  if truthy apiKey ∧ truthy apiSecret then
    let (r, calls) := generateAPISession hmacSha1 sha256Hex dateNowMs env
      userId password totpSecret (apiKey.getD "") (apiSecret.getD "")
    (.api r, calls)
  else
    let (r, calls) :=
      generateOMSSession hmacSha1 dateNowMs env.omsEnv userId password totpSecret
    (.oms r, calls)

/-! ## `handleLogin` — the session cache -/

/-- The `kite_users` row `handleLogin` reads. -/
structure UserRecord where
  password_hash : String
  totp_secret : String
  deriving DecidableEq, Repr

/-- The most recent `kite_sessions` row (`enctoken` is nullable). -/
structure SessionRow where
  enctoken : Option String
  kite_session : String
  deriving DecidableEq, Repr

/-- The serialized payload (`JSON.stringify`) a session insert stores. -/
inductive StoredPayload
  | api (a : ApiSessionData)
  | oms (o : OmsMergedResponse)
  deriving DecidableEq, Repr

/-- The row an `INSERT INTO kite_sessions` writes. -/
structure SessionInsert where
  user_id : String
  enctoken : Option String
  api_key : Option String
  access_token : Option String
  kite_session : StoredPayload
  login_type : String
  login_time : String
  created_at : String
  updated_at : String
  deriving DecidableEq, Repr

/-- The observable effects of one `handleLogin` run, in order: database
reads, the enctoken validity probe, the delegation to `generateSession`
(whose own upstream calls are traced inside it), the profile fetch, and
any session insert that actually wrote a row. -/
inductive LoginEffect
  | dbQueryUsers
  | dbQuerySessions
  | netProbe
  | callGenerateSession
  | netProfileFetch
  | dbInsertSession (r : SessionInsert)
  deriving DecidableEq, Repr

/-- The request `handleLogin` receives, after form decoding: the method,
the `Content-Type` header, and the five form fields (`none` = absent). -/
structure LoginRequest where
  method : String
  contentType : Option String
  user_id : Option String
  password : Option String
  totp_secret : Option String
  api_key : Option String
  api_secret : Option String
  deriving Repr

/-- The environment of one `handleLogin` run: what the database and the
upstream endpoints answered, and the clock values read. -/
structure LoginEnv where
  /-- The user lookup threw (with this message). -/
  userQueryThrows : Option String
  /-- The `kite_users` row for this `user_id`. -/
  userRecord : Option UserRecord
  /-- `Bun.password.verify(password, password_hash)`. -/
  passwordValid : Bool
  /-- The latest-session lookup threw (caught: treated as no session). -/
  sessionQueryThrows : Bool
  /-- The most recent `kite_sessions` row. -/
  existingSession : Option SessionRow
  /-- The profile probe's HTTP status (`none` = network failure). -/
  probeStatus : Option Nat
  /-- The upstream answers for a fresh session generation. -/
  sessEnv : SessionEnv
  /-- `getUserProfile`'s result: the profile JSON's `data` (opaque), or
  `null` on any failure. -/
  profileResp : Option String
  /-- The session insert throws (caught and only logged). -/
  insertThrows : Bool
  /-- `getISTTimestamp()` in `handleLogin` (the stored timestamps). -/
  nowIST : String
  /-- `new Date().toISOString()`. -/
  nowISO : String
  /-- `new Date(omsSession.login_time || new Date().toISOString()).toISOString()`
  — the `Date` parse/re-render is modelled as an environment input. -/
  loginTimeISO : String
  deriving Repr

/-- `x || null` on an optional string. -/
def truthyOrNull (o : Option String) : Option String :=
  match o with
  | some s => if s = "" then none else some s
  | none => none

/-- The view the OMS branch takes of `sessionResult` (the
`sessionResult as {...}` cast): the OMS result itself, or — for the
unreachable API-success-without-payload shape — a record of `undefined`
fields. -/
def omsViewOf : GenSessionResult → OMSSessionResult
  | .oms r => r
  | .api r => ⟨r.success, none, none, none, none, none, none, r.error⟩

/-- The OMS branch of `handleLogin`: fetch the profile, merge it with the
OMS session fields, persist (insert failures caught and only logged), and
respond. -/
def handleLoginOms (env : LoginEnv) (omsSession : OMSSessionResult)
    (user_id : String) (effs : List LoginEffect) :
    HttpResponse × List LoginEffect :=
  let effs := effs ++ [LoginEffect.netProfileFetch]
  match env.profileResp with
  | none => (authError "Failed to get user profile", effs)
  | some profile =>
    let omsResponse : OmsMergedResponse :=
      { user_id := omsSession.user_id,
        profile := profile,
        enctoken := omsSession.enctoken,
        kf_session := omsSession.kf_session,
        public_token := omsSession.public_token,
        login_time := omsSession.login_time }
    let record : SessionInsert :=
      { user_id := jsOrDefault omsSession.user_id user_id,
        enctoken := truthyOrNull omsSession.enctoken,
        api_key := none,
        access_token := none,
        kite_session := .oms omsResponse,
        login_type := "OMS",
        login_time := env.loginTimeISO,
        created_at := env.nowIST,
        updated_at := env.nowIST }
    let effs :=
      if env.insertThrows then effs
      else effs ++ [LoginEffect.dbInsertSession record]
    (successResponse (.omsMerged omsResponse), effs)

/-- The part of `handleLogin` after the cache check: generate a fresh
session, and on success persist and return it (insert failures are caught
and only logged). -/
def handleLoginFresh (hmacSha1 : List Nat → List Nat → List Nat)
    (sha256Hex : String → String) (dateNowMs : Nat) (env : LoginEnv)
    (req : LoginRequest) (user_id password totp_secret : String)
    (effs0 : List LoginEffect) : HttpResponse × List LoginEffect :=
  let effs := effs0 ++ [LoginEffect.callGenerateSession]
  let (sessionResult, _netCalls) :=
    generateSession hmacSha1 sha256Hex dateNowMs env.sessEnv
      user_id password totp_secret req.api_key req.api_secret
  if ¬ sessionResult.success then
    (authError (jsOrDefault sessionResult.error "Failed to generate session"),
      effs)
  else
    match sessionResult with
    | .api r =>
      match r.api_session with
      | some apiSession =>
        let record : SessionInsert :=
          { user_id := apiSession.user_id,
            enctoken := truthyOrNull (match r.oms_session with
              | some o => o.enctoken
              | none => none),
            api_key := some apiSession.api_key,
            access_token := some apiSession.access_token,
            kite_session := .api apiSession,
            login_type := "API",
            login_time := env.nowISO,
            created_at := env.nowIST,
            updated_at := env.nowIST }
        let effs :=
          if env.insertThrows then effs
          else effs ++ [LoginEffect.dbInsertSession record]
        (successResponse (.apiSession apiSession), effs)
      | none =>
        -- success without an API payload cannot be produced by
        -- `generateAPISession`; the source would fall through to the OMS
        -- branch, which is what happens below
        handleLoginOms env (omsViewOf sessionResult) user_id effs
    | .oms r => handleLoginOms env r user_id effs
/-- Embedding of `handleLogin`: method and content-type checks, required
fields, credential verification, then the session cache — if the most
recent session row has a (truthy) stored payload and enctoken and the
validity probe answers 200, return the deserialized stored payload with no
further work; otherwise generate and persist a fresh session. -/
def handleLogin (hmacSha1 : List Nat → List Nat → List Nat)
    (sha256Hex : String → String) (dateNowMs : Nat) (env : LoginEnv)
    (req : LoginRequest) : HttpResponse × List LoginEffect :=
  if req.method ≠ "POST" then (inputError "Method not allowed", [])
  else if (match req.contentType with
      | some ct => jsIncludes ct "application/x-www-form-urlencoded"
      | none => false) = false then
    (inputError "Content-Type must be application/x-www-form-urlencoded", [])
  else if ¬ truthy req.user_id then (inputError "user_id is required", [])
  else if ¬ truthy req.password then (inputError "password is required", [])
  else if ¬ truthy req.totp_secret then
    (inputError "totp_secret is required", [])
  else
    let user_id := req.user_id.getD ""
    let password := req.password.getD ""
    let totp_secret := req.totp_secret.getD ""
    match env.userQueryThrows with
    | some m => (dbError m, [LoginEffect.dbQueryUsers])
    | none =>
      match env.userRecord with
      | none => (authError "Invalid credentials", [LoginEffect.dbQueryUsers])
      | some u =>
        if ¬ env.passwordValid then
          (authError "Invalid credentials", [LoginEffect.dbQueryUsers])
        else if u.totp_secret ≠ totp_secret then
          (authError "Invalid credentials", [LoginEffect.dbQueryUsers])
        else
          let effs := [LoginEffect.dbQueryUsers, LoginEffect.dbQuerySessions]
          let existingSession :=
            if env.sessionQueryThrows then none else env.existingSession
          let cachedPayload : Option String :=
            match existingSession with
            | some row =>
              if row.kite_session ≠ "" ∧ truthy row.enctoken then
                some row.kite_session
              else none
            | none => none
          match cachedPayload with
          | some ks =>
            let effs := effs ++ [LoginEffect.netProbe]
            if isEnctokenValid env.probeStatus then
              (successResponse (.parsedJson ks), effs)
            else
              handleLoginFresh hmacSha1 sha256Hex dateNowMs env req
                user_id password totp_secret effs
          | none =>
            handleLoginFresh hmacSha1 sha256Hex dateNowMs env req
              user_id password totp_secret effs

/-! ## Claim-side auxiliary definitions -/

/-- The number of data rows of the feed: its lines after the header row
(under the same trim/split the parser applies). -/
def dataRowCount (csvText : String) : Nat :=
  (splitChar '\n' (jsTrimChars csvText.data)).length - 1

/-!
# Theorems

Everything below is a statement about the embedded definitions above.
-/

/-! ### Helper lemmas about the instrument store -/

/-- The insert loop never touches the transaction snapshot. -/
theorem insertLoop_txn (records : List InstrRow) (failAt : Option Nat)
    (i : Nat) (db : InstrDB) :
    (match insertLoop records failAt i db with
      | .ok (_, db') => db'.txn
      | .error db' => db'.txn) = db.txn := by
  induction records generalizing i db with
  | nil => simp [insertLoop]
  | cons r rest ih =>
    by_cases hf : failAt = some i
    · simp [insertLoop, hf]
    · simpa [insertLoop, hf, dbInsert] using ih (i + 1) (dbInsert r db)

/-- A completed insert loop appended exactly its records, in order, and
counted them on top of its starting index. -/
theorem insertLoop_ok (records : List InstrRow) (failAt : Option Nat)
    (i : Nat) (db : InstrDB) (cnt : Nat) (db' : InstrDB)
    (h : insertLoop records failAt i db = .ok (cnt, db')) :
    db'.rows = db.rows ++ records ∧ cnt = i + records.length := by
  induction records generalizing i db with
  | nil =>
    simp only [insertLoop] at h
    cases h
    simp
  | cons r rest ih =>
    by_cases hf : failAt = some i
    · simp [insertLoop, hf] at h
    · rw [insertLoop, if_neg hf] at h
      obtain ⟨h1, h2⟩ := ih (i + 1) (dbInsert r db) h
      refine ⟨by simpa [dbInsert] using h1, ?_⟩
      simp only [List.length_cons]
      omega

/-- When the environment makes the insert at index `k` fail, the loop
reaches it and throws, without having touched the snapshot. -/
theorem insertLoop_err (records : List InstrRow) (k i : Nat) (db : InstrDB)
    (hik : i ≤ k) (hk : k < i + records.length) :
    ∃ dbAt, insertLoop records (some k) i db = .error dbAt ∧
      dbAt.txn = db.txn := by
  induction records generalizing i db with
  | nil => simp at hk; omega
  | cons r rest ih =>
    by_cases hf : k = i
    · exact ⟨db, by simp [insertLoop, hf], rfl⟩
    · have h1 : i + 1 ≤ k := by omega
      have h2 : k < i + 1 + rest.length := by
        simp only [List.length_cons] at hk; omega
      obtain ⟨dbAt, hAt, hTxn⟩ := ih (i + 1) (dbInsert r db) h1 h2
      refine ⟨dbAt, ?_, by simpa [dbInsert] using hTxn⟩
      rw [insertLoop, if_neg (by simp only [Option.some.injEq]; omega)]
      exact hAt

/-- Full case analysis of one refresh run: either it succeeds, replacing
the committed rows by exactly the transformed feed rows, or it fails and
the committed rows are the pre-refresh rows (early failure) or empty
(failure inside the insert loop, after the unguarded delete). -/
theorem performInstrumentsRefresh_spec (env : RefreshEnv) (db0 : InstrDB) :
    ((performInstrumentsRefresh env db0).1.success = true ∧
      ∃ csvData, parseCSV env.csvText = .ok csvData ∧
        performInstrumentsRefresh env db0 =
          (⟨true, csvData.length, none⟩,
            ⟨csvData.map (fun row => transformToDBRecord row env.ts), none⟩)) ∨
    ((performInstrumentsRefresh env db0).1.success = false ∧
      ((performInstrumentsRefresh env db0).2 = db0 ∨
        (performInstrumentsRefresh env db0).2 = ⟨[], none⟩)) := by
  by_cases h1 : env.fetchThrows
  · right; constructor <;> simp [performInstrumentsRefresh, h1]
  by_cases h2 : env.fetchOk
  case neg =>
    right; constructor <;> simp [performInstrumentsRefresh, h1, h2]
  cases hp : parseCSV env.csvText with
  | error e =>
    right; constructor <;> simp [performInstrumentsRefresh, h1, h2, hp]
  | ok csvData =>
    by_cases h3 : env.deleteFails
    · right; constructor <;> simp [performInstrumentsRefresh, h1, h2, hp, h3]
    cases hil : insertLoop (csvData.map (fun row => transformToDBRecord row env.ts))
        env.insertFailsAt 0 (dbBegin (dbDeleteAll db0)) with
    | error dbAt =>
      right
      have htxn := insertLoop_txn
        (csvData.map (fun row => transformToDBRecord row env.ts))
        env.insertFailsAt 0 (dbBegin (dbDeleteAll db0))
      rw [hil] at htxn
      simp only [dbBegin, dbDeleteAll] at htxn hil
      constructor
      · simp [performInstrumentsRefresh, h1, h2, hp, h3, dbBegin, dbDeleteAll, hil]
      · right
        simp [performInstrumentsRefresh, h1, h2, hp, h3, dbBegin, dbDeleteAll,
          hil, dbRollback, htxn]
    | ok res =>
      obtain ⟨cnt, dbDone⟩ := res
      obtain ⟨hrows, hcnt⟩ := insertLoop_ok _ _ _ _ _ _ hil
      simp only [dbBegin, dbDeleteAll] at hil
      left
      constructor
      · simp [performInstrumentsRefresh, h1, h2, hp, h3, dbBegin, dbDeleteAll, hil]
      · refine ⟨csvData, rfl, ?_⟩
        simp only [dbBegin, dbDeleteAll] at hrows hcnt
        obtain ⟨rows', txn'⟩ := dbDone
        simp only at hrows
        simp [performInstrumentsRefresh, h1, h2, hp, h3, dbBegin, dbDeleteAll,
          hil, dbCommit, hrows, hcnt]

/-- A successful parse yields one record per line after the header. -/
theorem parseCSV_length (csv : String) (data : List RowObj)
    (h : parseCSV csv = .ok data) : data.length = dataRowCount csv := by
  unfold parseCSV at h
  by_cases hl : (splitChar '\n' (jsTrimChars csv.data)).length < 2
  · simp [hl] at h
  · simp only [hl, if_false, Except.ok.injEq, if_neg] at h
    rw [← h]
    simp [dataRowCount]

/-! ### C1, C2, C9 — refresh atomicity and the post-refresh invariant -/

/-- C1, counterexample: a refresh whose first insert fails (feed `"h\nr"`,
pre-refresh table holding one row) reports an insert error but leaves the
table empty — not at its pre-refresh contents — because the `DELETE` ran
outside (before) the transaction.  This refutes "the deletion … and the
bulk insert … are executed inside one database transaction, so that … the
replace is all-or-nothing with respect to the pre-refresh state". -/
theorem claim_C1_counterexample :
    (performInstrumentsRefresh
        ⟨false, "", true, "", "h\nr", false, "", some 0, "boom", "ts"⟩
        ⟨[⟨1, 1, "X", none, 0, none, 0, 0, 0, none, none, "NSE", "old"⟩],
          none⟩).1.success = false ∧
    (performInstrumentsRefresh
        ⟨false, "", true, "", "h\nr", false, "", some 0, "boom", "ts"⟩
        ⟨[⟨1, 1, "X", none, 0, none, 0, 0, 0, none, none, "NSE", "old"⟩],
          none⟩).1.error = some "Failed to insert data: boom" ∧
    (performInstrumentsRefresh
        ⟨false, "", true, "", "h\nr", false, "", some 0, "boom", "ts"⟩
        ⟨[⟨1, 1, "X", none, 0, none, 0, 0, 0, none, none, "NSE", "old"⟩],
          none⟩).2.rows = [] ∧
    ([⟨1, 1, "X", none, 0, none, 0, 0, 0, none, none, "NSE", "old"⟩] :
      List InstrRow) ≠ [] := by
  decide

/-- C1, amended: only the bulk insert runs inside the transaction; the
delete is executed before `BEGIN` and commits on its own.  On any insert
error the transaction is rolled back, so zero new rows are committed, but
the already-committed delete makes the final table empty rather than
restoring the pre-refresh contents. -/
theorem claim_C1_refresh_insert_error_leaves_table_empty (env : RefreshEnv)
    (db0 : InstrDB) (csvData : List RowObj) (k : Nat)
    (h1 : env.fetchThrows = false) (h2 : env.fetchOk = true)
    (hp : parseCSV env.csvText = .ok csvData) (h3 : env.deleteFails = false)
    (hk : env.insertFailsAt = some k) (hklt : k < csvData.length) :
    (performInstrumentsRefresh env db0).1.success = false ∧
    (performInstrumentsRefresh env db0).1.error =
      some ("Failed to insert data: " ++ env.insertMsg) ∧
    (performInstrumentsRefresh env db0).2.rows = [] := by
  obtain ⟨dbAt, hAt, hTxn⟩ := insertLoop_err
    (csvData.map (fun row => transformToDBRecord row env.ts)) k 0
    (dbBegin (dbDeleteAll db0)) (Nat.zero_le k) (by simpa using hklt)
  simp only [dbBegin, dbDeleteAll] at hTxn
  refine ⟨?_, ?_, ?_⟩ <;>
    simp [performInstrumentsRefresh, h1, h2, hp, h3, hk, hAt, dbRollback, hTxn]

/-- Witness for C1's amended theorem at the counterexample's input. -/
theorem claim_C1_witness :
    ((⟨false, "", true, "", "h\nr", false, "", some 0, "boom", "ts"⟩ :
        RefreshEnv).fetchThrows = false ∧
      parseCSV "h\nr" = .ok [[("h", "r")]] ∧ 0 < 1) ∧
    (performInstrumentsRefresh
        ⟨false, "", true, "", "h\nr", false, "", some 0, "boom", "ts"⟩
        ⟨[], none⟩).2.rows = [] :=
  ⟨⟨rfl, rfl, by decide⟩,
    (claim_C1_refresh_insert_error_leaves_table_empty
      ⟨false, "", true, "", "h\nr", false, "", some 0, "boom", "ts"⟩
      ⟨[], none⟩ [[("h", "r")]] 0 rfl rfl rfl rfl rfl
      (by decide)).2.2⟩

/-- C2: every failing refresh run — upstream fetch failure, parse failure,
delete failure or mid-insert failure — leaves the committed instrument
rows either exactly at their pre-refresh contents or completely empty,
never a mix of old and new rows. -/
theorem claim_C2_refresh_failure_all_or_empty (env : RefreshEnv)
    (db0 : InstrDB)
    (h : (performInstrumentsRefresh env db0).1.success = false) :
    (performInstrumentsRefresh env db0).2.rows = db0.rows ∨
      (performInstrumentsRefresh env db0).2.rows = [] := by
  rcases performInstrumentsRefresh_spec env db0 with ⟨hs, _⟩ | ⟨_, hdb | hdb⟩
  · rw [hs] at h; cases h
  · left; rw [hdb]
  · right; rw [hdb]

/-- Witness for C2 at a concrete failing run (upstream fetch not ok). -/
theorem claim_C2_witness :
    (performInstrumentsRefresh
        ⟨false, "", false, "boom", "", false, "", none, "", "ts"⟩
        ⟨[⟨1, 1, "X", none, 0, none, 0, 0, 0, none, none, "NSE", "old"⟩],
          none⟩).1.success = false ∧
    ((performInstrumentsRefresh
        ⟨false, "", false, "boom", "", false, "", none, "", "ts"⟩
        ⟨[⟨1, 1, "X", none, 0, none, 0, 0, 0, none, none, "NSE", "old"⟩],
          none⟩).2.rows =
      [⟨1, 1, "X", none, 0, none, 0, 0, 0, none, none, "NSE", "old"⟩] ∨
     (performInstrumentsRefresh
        ⟨false, "", false, "boom", "", false, "", none, "", "ts"⟩
        ⟨[⟨1, 1, "X", none, 0, none, 0, 0, 0, none, none, "NSE", "old"⟩],
          none⟩).2.rows = []) :=
  ⟨by decide,
    claim_C2_refresh_failure_all_or_empty
      ⟨false, "", false, "boom", "", false, "", none, "", "ts"⟩
      ⟨[⟨1, 1, "X", none, 0, none, 0, 0, 0, none, none, "NSE", "old"⟩], none⟩
      (by decide)⟩

/-- C9: immediately after a successful refresh, every committed row
carries the run's single timestamp (captured once before the inserts), the
row count equals the number of feed lines after the header row, and that
is also the count the refresh returns. -/
theorem claim_C9_refresh_success_invariant (env : RefreshEnv) (db0 : InstrDB)
    (h : (performInstrumentsRefresh env db0).1.success = true) :
    (∀ r ∈ (performInstrumentsRefresh env db0).2.rows, r.updated_at = env.ts) ∧
    (performInstrumentsRefresh env db0).2.rows.length = dataRowCount env.csvText ∧
    (performInstrumentsRefresh env db0).1.count =
      (performInstrumentsRefresh env db0).2.rows.length := by
  rcases performInstrumentsRefresh_spec env db0 with
    ⟨_, csvData, hp, heq⟩ | ⟨hs, _⟩
  · rw [heq]
    refine ⟨?_, ?_, ?_⟩
    · intro r hr
      simp only [List.mem_map] at hr
      obtain ⟨row, _, hrow⟩ := hr
      rw [← hrow]
      rfl
    · simpa using parseCSV_length env.csvText csvData hp
    · simp
  · rw [hs] at h; cases h

/-- Witness for C9 at a concrete successful run (a two-row feed). -/
theorem claim_C9_witness :
    (performInstrumentsRefresh
        ⟨false, "", true, "", "a,b\n1,2\n3,4", false, "", none, "",
          "2024-01-10 09:00:00"⟩ ⟨[], none⟩).1.success = true ∧
    (performInstrumentsRefresh
        ⟨false, "", true, "", "a,b\n1,2\n3,4", false, "", none, "",
          "2024-01-10 09:00:00"⟩ ⟨[], none⟩).2.rows.length =
      dataRowCount "a,b\n1,2\n3,4" :=
  ⟨by decide,
    (claim_C9_refresh_success_invariant
      ⟨false, "", true, "", "a,b\n1,2\n3,4", false, "", none, "",
        "2024-01-10 09:00:00"⟩ ⟨[], none⟩ (by decide)).2.1⟩

/-! ### C7 — the Set-Cookie → Cookie conversion -/

/-- C7: the conversion splits only at commas followed by an
(optionally whitespace-preceded) `name=` pattern, keeps each fragment's
part before its first semicolon, and joins the pairs with `"; "`.  In
particular the spec's merge example yields exactly `"a=1; b=2; c=3"` in
source order; an attribute comma (as inside an `Expires` date) does not
split; and no attribute fragment leaks into the output. -/
theorem claim_C7_cookie_conversion :
    convertSetCookieToCookie
        (joinRawCookies ["a=1; Path=/, b=2; Path=/", "c=3; Path=/"]) =
      "a=1; b=2; c=3" ∧
    convertSetCookieToCookie "a=1; Path=/, b=2; Path=/" = "a=1; b=2" ∧
    convertSetCookieToCookie
        "a=1; Expires=Thu, 01 Jan 1970 00:00:00 GMT; Path=/, b=2; Path=/" =
      "a=1; b=2" := by
  decide

/-! ### Helper lemmas: decimal rendering, characters, bits -/

/-- `Char.ofNat` on a scalar value below the surrogate range. -/
theorem toNat_ofNat_of_lt {n : Nat} (h : n < 55296) :
    (Char.ofNat n).toNat = n := by
  have hv : n.isValidChar := Or.inl h
  rw [Char.ofNat, dif_pos hv]
  rfl

/-- The rendering fuel is irrelevant once it exceeds the number. -/
theorem natCharsAux_irrel (f1 : Nat) : ∀ (f2 n : Nat), n < f1 → n < f2 →
    natCharsAux f1 n = natCharsAux f2 n := by
  induction f1 with
  | zero => intro f2 n h1 _; omega
  | succ g ih =>
    intro f2 n h1 h2
    cases f2 with
    | zero => omega
    | succ h =>
      by_cases hn : n < 10
      · simp [natCharsAux, hn]
      · have hd : n / 10 < n := Nat.div_lt_self (by omega) (by omega)
        simp only [natCharsAux, hn, if_false]
        rw [ih h (n / 10) (by omega) (by omega)]

/-- The recurrence of `natChars`. -/
theorem natChars_eq (n : Nat) : natChars n =
    if n < 10 then [digitChar n]
    else natChars (n / 10) ++ [digitChar (n % 10)] := by
  by_cases hn : n < 10
  · simp [natChars, natCharsAux, hn]
  · have hd : n / 10 < n := Nat.div_lt_self (by omega) (by omega)
    rw [if_neg hn]
    conv_lhs => rw [natChars, natCharsAux]
    conv_rhs => rw [natChars]
    rw [if_neg hn]
    congr 1
    exact natCharsAux_irrel n (n / 10 + 1) (n / 10) (by omega) (by omega)

/-- Digit characters are digits. -/
theorem digitChar_isDigit {k : Nat} (h : k < 10) :
    isDigitCh (digitChar k) = true := by
  interval_cases k <;> decide

/-- The code of a digit character. -/
theorem digitChar_toNat {k : Nat} (h : k < 10) :
    (digitChar k).toNat = 48 + k :=
  toNat_ofNat_of_lt (by omega)

/-- A rendered number is never empty. -/
theorem natChars_ne_nil (n : Nat) : natChars n ≠ [] := by
  rw [natChars_eq]
  split <;> simp

/-- Every character of a rendered number is a digit. -/
theorem natChars_all_digit (n : Nat) :
    ∀ c ∈ natChars n, isDigitCh c = true := by
  induction n using Nat.strong_induction_on with
  | _ n ih =>
    rw [natChars_eq]
    by_cases hn : n < 10
    · simp only [hn, if_true, List.mem_singleton]
      rintro c rfl
      exact digitChar_isDigit hn
    · have hd : n / 10 < n := Nat.div_lt_self (by omega) (by omega)
      simp only [hn, if_false, List.mem_append, List.mem_singleton]
      rintro c (hc | rfl)
      · exact ih _ hd c hc
      · exact digitChar_isDigit (Nat.mod_lt _ (by omega))

/-- A number below `10 ^ k` renders in at most `k` digits. -/
theorem natChars_length_le (n : Nat) : ∀ k, 1 ≤ k → n < 10 ^ k →
    (natChars n).length ≤ k := by
  induction n using Nat.strong_induction_on with
  | _ n ih =>
    intro k hk h
    rw [natChars_eq]
    by_cases hn : n < 10
    · simp only [hn, if_true, List.length_singleton]
      omega
    · have hd : n / 10 < n := Nat.div_lt_self (by omega) (by omega)
      have hk2 : 2 ≤ k := by
        by_contra hc
        have : k = 1 := by omega
        subst this
        simp at h
        omega
      have hsub : n / 10 < 10 ^ (k - 1) := by
        apply Nat.div_lt_of_lt_mul
        have : (10 : Nat) ^ k = 10 ^ (k - 1) * 10 := by
          rw [← Nat.pow_succ]
          congr 1
          omega
        omega
      simp only [hn, if_false, List.length_append, List.length_singleton]
      have := ih _ hd (k - 1) (by omega) hsub
      omega

/-- `decVal` over a final digit. -/
theorem decVal_append (xs : List Char) (c : Char) :
    decVal (xs ++ [c]) = 10 * decVal xs + (c.toNat - 48) := by
  simp [decVal, List.foldl_append]

/-- Parsing back a rendered number recovers it. -/
theorem decVal_natChars (n : Nat) : decVal (natChars n) = n := by
  induction n using Nat.strong_induction_on with
  | _ n ih =>
    rw [natChars_eq]
    by_cases hn : n < 10
    · simp only [hn, if_true]
      interval_cases n <;> decide
    · have hd : n / 10 < n := Nat.div_lt_self (by omega) (by omega)
      simp only [hn, if_false]
      rw [decVal_append, ih _ hd, digitChar_toNat (Nat.mod_lt _ (by omega))]
      omega

/-- `x &&& 15 = x % 16`. -/
theorem and15 (x : Nat) : x &&& 15 = x % 16 := by
  have := Nat.and_pow_two_sub_one_eq_mod x 4
  norm_num at this
  exact this

/-- `x &&& 127 = x % 128`. -/
theorem and127 (x : Nat) : x &&& 127 = x % 128 := by
  have := Nat.and_pow_two_sub_one_eq_mod x 7
  norm_num at this
  exact this

/-- `x &&& 255 = x % 256`. -/
theorem and255 (x : Nat) : x &&& 255 = x % 256 := by
  have := Nat.and_pow_two_sub_one_eq_mod x 8
  norm_num at this
  exact this

/-- Bitwise or of numbers with disjoint bit ranges is addition. -/
theorem lor_eq_add_of_disjoint (a b k : Nat) (ha : a % 2 ^ k = 0)
    (hb : b < 2 ^ k) : a ||| b = a + b := by
  obtain ⟨q, hq⟩ := Nat.dvd_of_mod_eq_zero ha
  subst hq
  apply Nat.eq_of_testBit_eq
  intro i
  rw [Nat.testBit_or]
  rcases Nat.lt_or_ge i k with hik | hik
  · have e1 : (2 : Nat) ^ k * q = 2 ^ i * (2 ^ (k - i) * q) := by
      rw [← Nat.mul_assoc, ← Nat.pow_add]
      congr 2
      omega
    have e2 : (2 : Nat) ^ (k - i) * q = 2 * (2 ^ (k - i - 1) * q) := by
      rw [← Nat.mul_assoc]
      congr 1
      rw [← Nat.pow_succ']
      congr 1
      omega
    rw [Nat.testBit_to_div_mod, Nat.testBit_to_div_mod, Nat.testBit_to_div_mod,
      e1, Nat.mul_add_div (Nat.two_pow_pos i),
      Nat.mul_div_cancel_left _ (Nat.two_pow_pos i), e2, Nat.mul_add_mod,
      Nat.mul_mod_right]
    simp
  · have hb' : b < 2 ^ i :=
      Nat.lt_of_lt_of_le hb (Nat.pow_le_pow_right (by omega) hik)
    rw [Nat.testBit_lt_two_pow hb', Bool.or_false]
    have e1 : (2 : Nat) ^ k * q + b = 2 ^ k * q + b := rfl
    rw [Nat.testBit_to_div_mod, Nat.testBit_to_div_mod]
    have hi : i = k + (i - k) := by omega
    rw [hi, Nat.pow_add, ← Nat.div_div_eq_div_mul, ← Nat.div_div_eq_div_mul,
      Nat.mul_add_div (Nat.two_pow_pos k), Nat.div_eq_of_lt hb,
      Nat.mul_div_cancel_left _ (Nat.two_pow_pos k)]
    simp

/-- The counter-byte loop computes the big-endian base-256 digits. -/
theorem counterBytesJs_eq (c : Nat) : counterBytesJs c =
    [c / 256 ^ 7 % 256, c / 256 ^ 6 % 256, c / 256 ^ 5 % 256,
     c / 256 ^ 4 % 256, c / 256 ^ 3 % 256, c / 256 ^ 2 % 256,
     c / 256 % 256, c % 256] := by
  simp only [counterBytesJs, Nat.div_div_eq_div_mul]
  norm_num

/-- The source's shift/mask/or truncation equals the RFC's arithmetic
reading. -/
theorem truncation_eq (h0 h1 h2 h3 : Nat) :
    ((((h0 &&& 127) <<< 24) ||| ((h1 &&& 255) <<< 16)) |||
      ((h2 &&& 255) <<< 8)) ||| (h3 &&& 255) =
    (h0 % 128) * 2 ^ 24 + (h1 % 256) * 2 ^ 16 + (h2 % 256) * 2 ^ 8 +
      h3 % 256 := by
  have p16 : (2 : Nat) ^ 16 = 65536 := by norm_num
  have p24 : (2 : Nat) ^ 24 = 16777216 := by norm_num
  have p8 : (2 : Nat) ^ 8 = 256 := by norm_num
  have e12 : (h0 % 128 * 2 ^ 24) ||| (h1 % 256 * 2 ^ 16) =
      h0 % 128 * 2 ^ 24 + h1 % 256 * 2 ^ 16 := by
    apply lor_eq_add_of_disjoint _ _ 24 (Nat.mul_mod_left _ _)
    have : h1 % 256 < 256 := Nat.mod_lt _ (by omega)
    rw [p16, p24]
    omega
  have e123 : (h0 % 128 * 2 ^ 24 + h1 % 256 * 2 ^ 16) |||
      (h2 % 256 * 2 ^ 8) =
      h0 % 128 * 2 ^ 24 + h1 % 256 * 2 ^ 16 + h2 % 256 * 2 ^ 8 := by
    apply lor_eq_add_of_disjoint _ _ 16
    · have : h0 % 128 * 2 ^ 24 + h1 % 256 * 2 ^ 16 =
          (h0 % 128 * 2 ^ 8 + h1 % 256) * 2 ^ 16 := by ring
      rw [this]
      exact Nat.mul_mod_left _ _
    · have : h2 % 256 < 256 := Nat.mod_lt _ (by omega)
      rw [p8, p16]
      omega
  have e1234 : (h0 % 128 * 2 ^ 24 + h1 % 256 * 2 ^ 16 + h2 % 256 * 2 ^ 8) |||
      (h3 % 256) =
      h0 % 128 * 2 ^ 24 + h1 % 256 * 2 ^ 16 + h2 % 256 * 2 ^ 8 +
        h3 % 256 := by
    apply lor_eq_add_of_disjoint _ _ 8
    · have : h0 % 128 * 2 ^ 24 + h1 % 256 * 2 ^ 16 + h2 % 256 * 2 ^ 8 =
          (h0 % 128 * 2 ^ 16 + h1 % 256 * 2 ^ 8 + h2 % 256) * 2 ^ 8 := by
        ring
      rw [this]
      exact Nat.mul_mod_left _ _
    · rw [p8]
      exact Nat.mod_lt _ (by omega)
  rw [and127, and255, and255, and255, Nat.shiftLeft_eq, Nat.shiftLeft_eq,
    Nat.shiftLeft_eq, e12, e123, e1234]

/-! ### Helper lemmas: TOTP secret normalization -/

/-- Uppercasing preserves being `'='`. -/
theorem jsToUpperChar_eq_eq (c : Char) :
    (jsToUpperChar c = '=') ↔ (c = '=') := by
  unfold jsToUpperChar
  by_cases h : 97 ≤ c.toNat ∧ c.toNat ≤ 122
  · rw [if_pos h]
    have h61 : ('=' : Char).toNat = 61 := by decide
    constructor
    · intro he
      have := congrArg Char.toNat he
      rw [toNat_ofNat_of_lt (by omega), h61] at this
      omega
    · intro he
      have := congrArg Char.toNat he
      rw [h61] at this
      omega
  · rw [if_neg h]

/-- Uppercasing is idempotent. -/
theorem jsToUpperChar_idem (c : Char) :
    jsToUpperChar (jsToUpperChar c) = jsToUpperChar c := by
  unfold jsToUpperChar
  by_cases h : 97 ≤ c.toNat ∧ c.toNat ≤ 122
  · rw [if_pos h, if_neg]
    rw [toNat_ofNat_of_lt (by omega)]
    omega
  · rw [if_neg h, if_neg h]

/-- Stripping the `=` padding commutes with uppercasing. -/
theorem strip_map_upper (l : List Char) :
    stripTrailingEq (l.map jsToUpperChar) =
      (stripTrailingEq l).map jsToUpperChar := by
  have hfun : ((fun c => decide (c = '=')) ∘ jsToUpperChar) =
      (fun c => decide (c = '=')) := by
    funext a
    simp only [Function.comp_apply, decide_eq_decide]
    exact jsToUpperChar_eq_eq a
  unfold stripTrailingEq
  rw [← List.map_reverse, List.dropWhile_map, hfun, List.map_reverse]

/-- Stripping the `=` padding is idempotent. -/
theorem strip_idem (l : List Char) :
    stripTrailingEq (stripTrailingEq l) = stripTrailingEq l := by
  unfold stripTrailingEq
  rw [List.reverse_reverse, List.dropWhile_idempotent]

/-- The secret cleaning of `base32Decode` is idempotent: cleaning an
already-cleaned secret changes nothing. -/
theorem cleanSecretOf_idem (s : String) :
    cleanSecretOf ⟨cleanSecretOf s⟩ = cleanSecretOf s := by
  show stripTrailingEq ((stripTrailingEq (s.data.map jsToUpperChar)).map
    jsToUpperChar) = _
  rw [← strip_map_upper, strip_idem, List.map_map]
  unfold cleanSecretOf
  congr 2
  funext a
  exact jsToUpperChar_idem a

/-- Padding to six characters yields six characters when the input has at
most six. -/
theorem padStartZeros_length (s : List Char) (h : s.length ≤ 6) :
    (padStartZeros 6 s).length = 6 := by
  unfold padStartZeros
  by_cases hl : s.length < 6
  · simp only [hl, if_true, List.length_append, List.length_replicate]
    omega
  · simp only [hl, if_false]
    omega

/-- Every character of a zero-padded rendering is a digit. -/
theorem padStartZeros_digits (n k : Nat) :
    ∀ c ∈ padStartZeros k (natChars n), isDigitCh c = true := by
  unfold padStartZeros
  intro c hc
  split at hc
  · rw [List.mem_append] at hc
    rcases hc with hc | hc
    · rw [List.eq_of_mem_replicate hc]
      decide
    · exact natChars_all_digit n c hc
  · exact natChars_all_digit n c hc

/-! ### C8, C10 — the TOTP generator -/

/-- C8: for every secret that decodes under the base32 alphabet and every
fixed clock reading, `generateTotpValue` returns exactly the RFC
4226/6238 code (counter `⌊unix_seconds/step⌋` as 8 big-endian bytes,
HMAC-SHA1 keyed by the decoded secret, 31-bit dynamic truncation, mod
1,000,000, zero-padded), and the output is a string of exactly 6 decimal
digits — deterministic, being a pure function of secret and time
bucket. -/
theorem claim_C8_totp_matches_rfc (hmacSha1 : List Nat → List Nat → List Nat)
    (secret : String) (timeStep dateNowMs : Nat) (key : List Nat)
    (hstep : 0 < timeStep) (hdec : base32Decode secret = .ok key) :
    generateTotpValue hmacSha1 secret timeStep dateNowMs =
      .ok (rfcTotpCode hmacSha1 key timeStep (dateNowMs / 1000)) ∧
    (rfcTotpCode hmacSha1 key timeStep (dateNowMs / 1000)).length = 6 ∧
    ∀ c ∈ (rfcTotpCode hmacSha1 key timeStep (dateNowMs / 1000)).data,
      isDigitCh c = true := by
  refine ⟨?_, ?_, ?_⟩
  · simp only [generateTotpValue, hdec, rfcTotpCode]
    rw [counterBytesJs_eq, and15, truncation_eq]
  · show (padStartZeros 6 (natChars _)).length = 6
    apply padStartZeros_length
    apply natChars_length_le _ 6 (by omega)
    have : (10 : Nat) ^ 6 = 1000000 := by norm_num
    rw [this]
    exact Nat.mod_lt _ (by omega)
  · show ∀ c ∈ padStartZeros 6 (natChars _), isDigitCh c = true
    exact padStartZeros_digits _ 6

/-- Witness for C8 at the secret `"AA"` (which decodes to the single byte
`0`), a constant 20-byte HMAC, and `Date.now() = 59000`. -/
theorem claim_C8_witness :
    ((0 : Nat) < 30 ∧ base32Decode "AA" = .ok [0]) ∧
    (generateTotpValue (fun _ _ => List.replicate 20 0) "AA" 30 59000 =
      .ok (rfcTotpCode (fun _ _ => List.replicate 20 0) [0] 30
        (59000 / 1000)) ∧
    (rfcTotpCode (fun _ _ => List.replicate 20 0) [0] 30
      (59000 / 1000)).length = 6 ∧
    ∀ c ∈ (rfcTotpCode (fun _ _ => List.replicate 20 0) [0] 30
      (59000 / 1000)).data, isDigitCh c = true) :=
  ⟨⟨by decide, rfl⟩,
    claim_C8_totp_matches_rfc (fun _ _ => List.replicate 20 0) "AA" 30 59000
      [0] (by decide) rfl⟩

/-- C10: `generateTotpValue` normalizes its secret by uppercasing and
stripping trailing `=` padding — the code for a secret equals the code for
its normalized form (so case and padding differences are invisible) — and
it rejects a secret exactly when some character of the normalized form
lies outside `A`–`Z`/`2`–`7` (so lowercase secrets are accepted). -/
theorem claim_C10_totp_secret_normalization
    (hmacSha1 : List Nat → List Nat → List Nat) (s : String)
    (timeStep dateNowMs : Nat) :
    generateTotpValue hmacSha1 s timeStep dateNowMs =
      generateTotpValue hmacSha1 ⟨cleanSecretOf s⟩ timeStep dateNowMs ∧
    ((∃ e, generateTotpValue hmacSha1 s timeStep dateNowMs = .error e) ↔
      ∃ c ∈ cleanSecretOf s, c ∉ base32Chars) := by
  have hb : base32Decode ⟨cleanSecretOf s⟩ = base32Decode s := by
    unfold base32Decode
    rw [cleanSecretOf_idem]
  constructor
  · unfold generateTotpValue
    rw [hb]
  · by_cases hall : (cleanSecretOf s).all (fun c => c ∈ base32Chars)
    · simp only [generateTotpValue, base32Decode, hall, if_true]
      constructor
      · rintro ⟨e, he⟩
        cases he
      · rintro ⟨c, hc, hnc⟩
        rw [List.all_eq_true] at hall
        exact absurd (by simpa using hall c hc) hnc
    · simp only [generateTotpValue, base32Decode, hall, if_false]
      constructor
      · intro _
        rw [List.all_eq_true] at hall
        push_neg at hall
        obtain ⟨c, hc, hnc⟩ := hall
        exact ⟨c, hc, by simpa using hnc⟩
      · intro _
        exact ⟨"Invalid base32 character", rfl⟩

/-! ### C5 — the connect-handshake short circuit -/

/-- The OMS driver only ever issues the login call, or login then 2FA. -/
theorem generateOMSSession_calls (hmacSha1 : List Nat → List Nat → List Nat)
    (dateNowMs : Nat) (env : OMSEnv) (u p t : String) :
    (generateOMSSession hmacSha1 dateNowMs env u p t).2 = [NetCall.login] ∨
    (generateOMSSession hmacSha1 dateNowMs env u p t).2 =
      [NetCall.login, NetCall.twofa] := by
  unfold generateOMSSession
  rcases env.loginThrows with _ | m
  · simp only
    split
    · simp
    · rcases env.loginJson with _ | lj
      · simp
      · simp only
        split
        · simp
        · split
          · simp
          · rcases env.twofaThrows with _ | m2
            · simp only
              split
              · simp
              · rcases env.twofaJson with _ | tj
                · simp
                · simp only
                  split <;> simp
            · simp
  · simp

/-- A falsy `sess_id` extraction makes `getSessionID` return `null`. -/
theorem getSessionID_none (resp : RedirectResp) (hthrew : resp.threw = false)
    (hfail : resp.status ≠ 302 ∨ resp.location = none ∨
      (∃ loc, resp.location = some loc ∧
        (getQueryParam loc "sess_id" = none ∨
          getQueryParam loc "sess_id" = some ""))) :
    getSessionID resp = none := by
  unfold getSessionID
  rw [hthrew]
  simp only [Bool.false_eq_true, if_false]
  rcases hfail with hs | hl | ⟨loc, hloc, hq⟩
  · rw [if_pos hs]
  · by_cases hs : resp.status ≠ 302
    · rw [if_pos hs]
    · rw [if_neg hs, hl]
  · by_cases hs : resp.status ≠ 302
    · rw [if_pos hs]
    · rw [if_neg hs, hloc]
      rcases hq with hq | hq <;> simp [hq]

/-- C5: when the OMS step has succeeded but the no-follow connect GET
answers with any status other than 302 — or with a 302 whose `Location`
is missing or carries no (truthy) `sess_id` — `generateAPISession` fails
with the handshake error (`success: false`, `"Failed to get session ID"`,
the `SessionHandshakeFailed` outcome of the specification) and issues no
further upstream call: the trace ends at the connect call, with neither
the connect/finish GET nor the token-exchange POST in it. -/
theorem claim_C5_handshake_short_circuit
    (hmacSha1 : List Nat → List Nat → List Nat) (sha256Hex : String → String)
    (dateNowMs : Nat) (env : SessionEnv)
    (userId password totpSecret apiKey apiSecret : String)
    (homs : (generateOMSSession hmacSha1 dateNowMs env.omsEnv userId password
      totpSecret).1.success = true)
    (hthrew : env.connectResp.threw = false)
    (hfail : env.connectResp.status ≠ 302 ∨ env.connectResp.location = none ∨
      (∃ loc, env.connectResp.location = some loc ∧
        (getQueryParam loc "sess_id" = none ∨
          getQueryParam loc "sess_id" = some ""))) :
    (generateAPISession hmacSha1 sha256Hex dateNowMs env userId password
        totpSecret apiKey apiSecret).1 =
      ⟨false, some "Failed to get session ID", none, none⟩ ∧
    (generateAPISession hmacSha1 sha256Hex dateNowMs env userId password
        totpSecret apiKey apiSecret).2 =
      (generateOMSSession hmacSha1 dateNowMs env.omsEnv userId password
        totpSecret).2 ++ [NetCall.connect] ∧
    NetCall.connectFinish ∉ (generateAPISession hmacSha1 sha256Hex dateNowMs
      env userId password totpSecret apiKey apiSecret).2 ∧
    NetCall.tokenExchange ∉ (generateAPISession hmacSha1 sha256Hex dateNowMs
      env userId password totpSecret apiKey apiSecret).2 := by
  have hsid := getSessionID_none env.connectResp hthrew hfail
  have hcalls := generateOMSSession_calls hmacSha1 dateNowMs env.omsEnv
    userId password totpSecret
  cases hg : generateOMSSession hmacSha1 dateNowMs env.omsEnv userId password
    totpSecret with
  | mk r calls =>
    rw [hg] at homs hcalls
    simp only at homs hcalls
    refine ⟨?_, ?_, ?_, ?_⟩ <;>
      simp only [generateAPISession, hg, homs, Bool.true_eq_false,
        not_true_eq_false, if_false, Bool.not_true, hsid]
    · rcases hcalls with hc | hc <;> simp [hc]
    · rcases hcalls with hc | hc <;> simp [hc]

/-- Witness for C5: a concrete successful OMS run followed by a connect
response with status 200 instead of 302. -/
theorem claim_C5_witness :
    ((generateOMSSession (fun _ _ => List.replicate 20 0) 0
        ⟨none, ⟨200, some "kf_session=abc; Path=/", "b"⟩,
          some ⟨"success", "U1", "R1", "totp", "js"⟩, "jerr",
          none, ⟨200, some "enctoken=tok; Path=/", "b2"⟩,
          some ⟨"success", "js2"⟩, "jerr2", "2024-01-10 09:00:00"⟩
        "U" "p" "AA").1.success = true ∧
      (⟨false, 200, none⟩ : RedirectResp).status ≠ 302) ∧
    (generateAPISession (fun _ _ => List.replicate 20 0) (fun s => s) 0
        ⟨⟨none, ⟨200, some "kf_session=abc; Path=/", "b"⟩,
          some ⟨"success", "U1", "R1", "totp", "js"⟩, "jerr",
          none, ⟨200, some "enctoken=tok; Path=/", "b2"⟩,
          some ⟨"success", "js2"⟩, "jerr2", "2024-01-10 09:00:00"⟩,
          ⟨false, 200, none⟩, ⟨false, 302, none⟩, ⟨false, 200, none⟩⟩
        "U" "p" "AA" "key" "sec").1 =
      ⟨false, some "Failed to get session ID", none, none⟩ :=
  ⟨⟨by decide, by decide⟩,
    (claim_C5_handshake_short_circuit (fun _ _ => List.replicate 20 0)
      (fun s => s) 0
      ⟨⟨none, ⟨200, some "kf_session=abc; Path=/", "b"⟩,
        some ⟨"success", "U1", "R1", "totp", "js"⟩, "jerr",
        none, ⟨200, some "enctoken=tok; Path=/", "b2"⟩,
        some ⟨"success", "js2"⟩, "jerr2", "2024-01-10 09:00:00"⟩,
        ⟨false, 200, none⟩, ⟨false, 302, none⟩, ⟨false, 200, none⟩⟩
      "U" "p" "AA" "key" "sec" (by decide) rfl (Or.inl (by decide))).1⟩

/-! ### C3 — the session-cache fast path -/

/-- The OMS response branch only adds effects at the end. -/
theorem handleLoginOms_mem (env : LoginEnv) (oms : OMSSessionResult)
    (uid : String) (effs : List LoginEffect) (x : LoginEffect)
    (hx : x ∈ effs) : x ∈ (handleLoginOms env oms uid effs).2 := by
  unfold handleLoginOms
  cases hpr : env.profileResp with
  | none =>
    simp only [hpr]
    exact List.mem_append_left _ hx
  | some profile =>
    simp only [hpr]
    by_cases hins : env.insertThrows = true
    · simp only [hins, if_true]
      exact List.mem_append_left _ hx
    · simp only [hins, if_false]
      exact List.mem_append_left _ (List.mem_append_left _ hx)

/-- Once the fresh-session path is taken, the `generateSession` delegation
is among the run's effects. -/
theorem handleLoginFresh_calls_generate
    (hmacSha1 : List Nat → List Nat → List Nat) (sha256Hex : String → String)
    (dateNowMs : Nat) (env : LoginEnv) (req : LoginRequest)
    (user_id password totp_secret : String) (effs0 : List LoginEffect) :
    LoginEffect.callGenerateSession ∈
      (handleLoginFresh hmacSha1 sha256Hex dateNowMs env req user_id password
        totp_secret effs0).2 := by
  have base : LoginEffect.callGenerateSession ∈
      effs0 ++ [LoginEffect.callGenerateSession] := by simp
  unfold handleLoginFresh
  cases hg : (generateSession hmacSha1 sha256Hex dateNowMs env.sessEnv
    user_id password totp_secret req.api_key req.api_secret) with
  | mk sr _calls =>
    simp only
    by_cases hs : sr.success = true
    · rw [if_neg (by simp [hs])]
      cases sr with
      | oms r => exact handleLoginOms_mem _ _ _ _ _ base
      | api r =>
        cases hr : r.api_session with
        | none =>
          simp only [hr]
          exact handleLoginOms_mem _ _ _ _ _ base
        | some apiSession =>
          simp only [hr]
          by_cases hins : env.insertThrows = true
          · simp only [hins, if_true]
            exact base
          · simp only [hins, if_false]
            exact List.mem_append_left _ base
    · rw [if_pos (by simp [hs])]
      exact base

/-- Truthiness of an optional string, unpacked. -/
theorem truthy_iff (o : Option String) :
    truthy o = true ↔ ∃ s, o = some s ∧ s ≠ "" := by
  cases o <;> simp [truthy]

/-- C3: once credentials verify and the most recent session row carries a
non-empty stored payload and bearer token, a 200 from the validity probe
makes `handleLogin` return the deserialized stored payload verbatim with
no further effect — no `generateSession` call and no database write (the
whole effect trace is the two reads and the probe) — while any other
probe outcome, a network failure included, falls through to a fresh
login. -/
theorem claim_C3_session_cache_hit
    (hmacSha1 : List Nat → List Nat → List Nat) (sha256Hex : String → String)
    (dateNowMs : Nat) (env : LoginEnv) (req : LoginRequest)
    (u : UserRecord) (enc ks : String)
    (hm : req.method = "POST")
    (hct : (match req.contentType with
      | some ct => jsIncludes ct "application/x-www-form-urlencoded"
      | none => false) = true)
    (huid : truthy req.user_id = true)
    (hpw : truthy req.password = true)
    (hts : truthy req.totp_secret = true)
    (hq : env.userQueryThrows = none)
    (hur : env.userRecord = some u)
    (hpv : env.passwordValid = true)
    (htot : u.totp_secret = req.totp_secret.getD "")
    (hsq : env.sessionQueryThrows = false)
    (hex : env.existingSession = some ⟨some enc, ks⟩)
    (henc : enc ≠ "") (hks : ks ≠ "") :
    (env.probeStatus = some 200 →
      handleLogin hmacSha1 sha256Hex dateNowMs env req =
        (successResponse (.parsedJson ks),
          [LoginEffect.dbQueryUsers, LoginEffect.dbQuerySessions,
            LoginEffect.netProbe])) ∧
    (env.probeStatus ≠ some 200 →
      LoginEffect.callGenerateSession ∈
        (handleLogin hmacSha1 sha256Hex dateNowMs env req).2) := by
  obtain ⟨uid, hu1, hu2⟩ := (truthy_iff _).mp huid
  obtain ⟨pw, hp1, hp2⟩ := (truthy_iff _).mp hpw
  obtain ⟨ts, ht1, ht2⟩ := (truthy_iff _).mp hts
  constructor
  · intro hp
    have hv : isEnctokenValid env.probeStatus = true := by
      unfold isEnctokenValid
      simp [hp]
    simp [handleLogin, hm, hct, hu1, hu2, hp1, hp2, ht1, ht2, hq, hur, hpv,
      htot, hsq, hex, henc, hks, truthy, hv]
  · intro hp
    have hv : isEnctokenValid env.probeStatus = false := by
      unfold isEnctokenValid
      simpa using hp
    simp [handleLogin, hm, hct, hu1, hu2, hp1, hp2, ht1, ht2, hq, hur, hpv,
      htot, hsq, hex, henc, hks, truthy, hv,
      handleLoginFresh_calls_generate]

/-- Witness for C3: a concrete cache-valid run (probe answers 200) that
returns the stored payload `"cached"` with only the two reads and the
probe as effects. -/
theorem claim_C3_witness :
    ((⟨"POST", some "application/x-www-form-urlencoded", some "U", some "p",
        some "AA", none, none⟩ : LoginRequest).method = "POST" ∧
      ("tok" : String) ≠ "" ∧ ("cached" : String) ≠ "") ∧
    handleLogin (fun _ _ => List.replicate 20 0) (fun s => s) 0
        ⟨none, some ⟨"h", "AA"⟩, true, false, some ⟨some "tok", "cached"⟩,
          some 200,
          ⟨⟨none, ⟨200, none, ""⟩, none, "", none, ⟨200, none, ""⟩, none, "",
            ""⟩, ⟨false, 302, none⟩, ⟨false, 302, none⟩, ⟨false, 200, none⟩⟩,
          none, false, "t", "t", "t"⟩
        ⟨"POST", some "application/x-www-form-urlencoded", some "U", some "p",
          some "AA", none, none⟩ =
      (successResponse (.parsedJson "cached"),
        [LoginEffect.dbQueryUsers, LoginEffect.dbQuerySessions,
          LoginEffect.netProbe]) :=
  ⟨⟨rfl, by decide, by decide⟩,
    (claim_C3_session_cache_hit (fun _ _ => List.replicate 20 0) (fun s => s)
      0
      ⟨none, some ⟨"h", "AA"⟩, true, false, some ⟨some "tok", "cached"⟩,
        some 200,
        ⟨⟨none, ⟨200, none, ""⟩, none, "", none, ⟨200, none, ""⟩, none, "",
          ""⟩, ⟨false, 302, none⟩, ⟨false, 302, none⟩, ⟨false, 200, none⟩⟩,
        none, false, "t", "t", "t"⟩
      ⟨"POST", some "application/x-www-form-urlencoded", some "U", some "p",
        some "AA", none, none⟩
      ⟨"h", "AA"⟩ "tok" "cached" rfl (by decide) (by decide) (by decide)
      (by decide) rfl rfl rfl rfl rfl rfl (by decide) (by decide)).1 rfl⟩

/-! ### C6 — what a failing session acquisition shows the caller -/

/-- C6, counterexample: two `handleLogin` runs that differ only in which
upstream step rejected them — the login POST answering 403 in one, the
2FA POST answering 403 (after a successful login) in the other — both
reach the caller as `AuthenticationException`/401, but with different
messages, each naming the failing step and quoting the upstream status
and body.  This refutes "the message does not reveal which protocol step
failed and does not include the upstream status or response body … two
failing runs … produce the same caller-visible error class and
message". -/
theorem claim_C6_counterexample :
    (handleLogin (fun _ _ => List.replicate 20 0) (fun s => s) 0
        ⟨none, some ⟨"h", "AA"⟩, true, false, none, none,
          ⟨⟨none, ⟨403, none, "no"⟩, none, "x", none, ⟨200, none, ""⟩, none,
            "x", "ist"⟩,
            ⟨false, 302, none⟩, ⟨false, 302, none⟩, ⟨false, 200, none⟩⟩,
          none, false, "t", "t", "t"⟩
        ⟨"POST", some "application/x-www-form-urlencoded", some "U", some "p",
          some "AA", none, none⟩).1 =
      errorResponse .AuthenticationException "Login failed [403]: no" 401 ∧
    (handleLogin (fun _ _ => List.replicate 20 0) (fun s => s) 0
        ⟨none, some ⟨"h", "AA"⟩, true, false, none, none,
          ⟨⟨none, ⟨200, some "kf_session=abc", "b"⟩,
            some ⟨"success", "U", "R", "totp", "js"⟩, "x",
            none, ⟨403, none, "no"⟩, none, "x", "ist"⟩,
            ⟨false, 302, none⟩, ⟨false, 302, none⟩, ⟨false, 200, none⟩⟩,
          none, false, "t", "t", "t"⟩
        ⟨"POST", some "application/x-www-form-urlencoded", some "U", some "p",
          some "AA", none, none⟩).1 =
      errorResponse .AuthenticationException "2FA failed [403]: no" 401 ∧
    ("Login failed [403]: no" : String) ≠ "2FA failed [403]: no" := by
  refine ⟨?_, ?_, ?_⟩ <;> decide

/-- A driver failure after verified credentials surfaces as
`AuthenticationException` 401 carrying the driver's error string
verbatim. -/
theorem handleLogin_driver_failure
    (hmacSha1 : List Nat → List Nat → List Nat) (sha256Hex : String → String)
    (dateNowMs : Nat) (env : LoginEnv) (req : LoginRequest)
    (u : UserRecord) (e : String)
    (hm : req.method = "POST")
    (hct : (match req.contentType with
      | some ct => jsIncludes ct "application/x-www-form-urlencoded"
      | none => false) = true)
    (huid : truthy req.user_id = true)
    (hpw : truthy req.password = true)
    (hts : truthy req.totp_secret = true)
    (hq : env.userQueryThrows = none)
    (hur : env.userRecord = some u)
    (hpv : env.passwordValid = true)
    (htot : u.totp_secret = req.totp_secret.getD "")
    (hsq : env.sessionQueryThrows = false)
    (hex : env.existingSession = none)
    (hak : truthy req.api_key = false)
    (hfail : (generateOMSSession hmacSha1 dateNowMs env.sessEnv.omsEnv
      (req.user_id.getD "") (req.password.getD "")
      (req.totp_secret.getD "")).1.success = false)
    (herr : (generateOMSSession hmacSha1 dateNowMs env.sessEnv.omsEnv
      (req.user_id.getD "") (req.password.getD "")
      (req.totp_secret.getD "")).1.error = some e)
    (hne : e ≠ "") :
    handleLogin hmacSha1 sha256Hex dateNowMs env req =
      (errorResponse .AuthenticationException e 401,
        [LoginEffect.dbQueryUsers, LoginEffect.dbQuerySessions,
          LoginEffect.callGenerateSession]) := by
  obtain ⟨uid, hu1, hu2⟩ := (truthy_iff _).mp huid
  obtain ⟨pw, hp1, hp2⟩ := (truthy_iff _).mp hpw
  obtain ⟨ts, ht1, ht2⟩ := (truthy_iff _).mp hts
  simp [truthy] at hak
  rw [hu1, hp1, ht1] at hfail herr
  simp only [Option.getD_some] at hfail herr
  cases hg : generateOMSSession hmacSha1 dateNowMs env.sessEnv.omsEnv
    uid pw ts with
  | mk r calls =>
    rw [hg] at hfail herr
    simp only at hfail herr
    simp [handleLogin, hm, hct, hu1, hu2, hp1, hp2, ht1, ht2, hq, hur, hpv,
      htot, hsq, hex, handleLoginFresh, generateSession, hak, hg,
      GenSessionResult.success, GenSessionResult.error, hfail, herr,
      jsOrDefault, hne, errorResponse, authError, truthy]

/-- C6 (amended): two session acquisitions that fail after local
credential verification — differing only in which upstream step rejected
them — reach the caller with the same error *class* (an
`AuthenticationException` response with HTTP status 401), but not with a
generic message: each response's message is the OMS driver's error string
verbatim, which names the failing step and includes the upstream status
and body. -/
theorem claim_C6_auth_failure_class_uniform_message_verbatim
    (hmacSha1 hmacSha1' : List Nat → List Nat → List Nat)
    (sha256Hex sha256Hex' : String → String) (dateNowMs dateNowMs' : Nat)
    (env env' : LoginEnv) (req req' : LoginRequest) (u u' : UserRecord)
    (e e' : String)
    (hm : req.method = "POST")
    (hct : (match req.contentType with
      | some ct => jsIncludes ct "application/x-www-form-urlencoded"
      | none => false) = true)
    (huid : truthy req.user_id = true) (hpw : truthy req.password = true)
    (hts : truthy req.totp_secret = true)
    (hq : env.userQueryThrows = none) (hur : env.userRecord = some u)
    (hpv : env.passwordValid = true)
    (htot : u.totp_secret = req.totp_secret.getD "")
    (hsq : env.sessionQueryThrows = false) (hex : env.existingSession = none)
    (hak : truthy req.api_key = false)
    (hfail : (generateOMSSession hmacSha1 dateNowMs env.sessEnv.omsEnv
      (req.user_id.getD "") (req.password.getD "")
      (req.totp_secret.getD "")).1.success = false)
    (herr : (generateOMSSession hmacSha1 dateNowMs env.sessEnv.omsEnv
      (req.user_id.getD "") (req.password.getD "")
      (req.totp_secret.getD "")).1.error = some e)
    (hne : e ≠ "")
    (hm' : req'.method = "POST")
    (hct' : (match req'.contentType with
      | some ct => jsIncludes ct "application/x-www-form-urlencoded"
      | none => false) = true)
    (huid' : truthy req'.user_id = true) (hpw' : truthy req'.password = true)
    (hts' : truthy req'.totp_secret = true)
    (hq' : env'.userQueryThrows = none) (hur' : env'.userRecord = some u')
    (hpv' : env'.passwordValid = true)
    (htot' : u'.totp_secret = req'.totp_secret.getD "")
    (hsq' : env'.sessionQueryThrows = false)
    (hex' : env'.existingSession = none)
    (hak' : truthy req'.api_key = false)
    (hfail' : (generateOMSSession hmacSha1' dateNowMs' env'.sessEnv.omsEnv
      (req'.user_id.getD "") (req'.password.getD "")
      (req'.totp_secret.getD "")).1.success = false)
    (herr' : (generateOMSSession hmacSha1' dateNowMs' env'.sessEnv.omsEnv
      (req'.user_id.getD "") (req'.password.getD "")
      (req'.totp_secret.getD "")).1.error = some e')
    (hne' : e' ≠ "") :
    (handleLogin hmacSha1 sha256Hex dateNowMs env req).1 =
      errorResponse .AuthenticationException e 401 ∧
    (handleLogin hmacSha1' sha256Hex' dateNowMs' env' req').1 =
      errorResponse .AuthenticationException e' 401 ∧
    (handleLogin hmacSha1 sha256Hex dateNowMs env req).1.status =
      (handleLogin hmacSha1' sha256Hex' dateNowMs' env' req').1.status := by
  have h1 := handleLogin_driver_failure hmacSha1 sha256Hex dateNowMs env req
    u e hm hct huid hpw hts hq hur hpv htot hsq hex hak hfail herr hne
  have h2 := handleLogin_driver_failure hmacSha1' sha256Hex' dateNowMs' env'
    req' u' e' hm' hct' huid' hpw' hts' hq' hur' hpv' htot' hsq' hex' hak'
    hfail' herr' hne'
  rw [h1, h2]
  exact ⟨rfl, rfl, rfl⟩

/-- Witness for C6's amended theorem at the counterexample's two runs. -/
theorem claim_C6_witness :
    (("Login failed [403]: no" : String) ≠ "" ∧
      ("2FA failed [403]: no" : String) ≠ "") ∧
    (handleLogin (fun _ _ => List.replicate 20 0) (fun s => s) 0
        ⟨none, some ⟨"h", "AA"⟩, true, false, none, none,
          ⟨⟨none, ⟨403, none, "no"⟩, none, "x", none, ⟨200, none, ""⟩, none,
            "x", "ist"⟩,
            ⟨false, 302, none⟩, ⟨false, 302, none⟩, ⟨false, 200, none⟩⟩,
          none, false, "t", "t", "t"⟩
        ⟨"POST", some "application/x-www-form-urlencoded", some "U", some "p",
          some "AA", none, none⟩).1 =
      errorResponse .AuthenticationException "Login failed [403]: no" 401 ∧
    (handleLogin (fun _ _ => List.replicate 20 0) (fun s => s) 0
        ⟨none, some ⟨"h", "AA"⟩, true, false, none, none,
          ⟨⟨none, ⟨200, some "kf_session=abc", "b"⟩,
            some ⟨"success", "U", "R", "totp", "js"⟩, "x",
            none, ⟨403, none, "no"⟩, none, "x", "ist"⟩,
            ⟨false, 302, none⟩, ⟨false, 302, none⟩, ⟨false, 200, none⟩⟩,
          none, false, "t", "t", "t"⟩
        ⟨"POST", some "application/x-www-form-urlencoded", some "U", some "p",
          some "AA", none, none⟩).1 =
      errorResponse .AuthenticationException "2FA failed [403]: no" 401 ∧
    (handleLogin (fun _ _ => List.replicate 20 0) (fun s => s) 0
        ⟨none, some ⟨"h", "AA"⟩, true, false, none, none,
          ⟨⟨none, ⟨403, none, "no"⟩, none, "x", none, ⟨200, none, ""⟩, none,
            "x", "ist"⟩,
            ⟨false, 302, none⟩, ⟨false, 302, none⟩, ⟨false, 200, none⟩⟩,
          none, false, "t", "t", "t"⟩
        ⟨"POST", some "application/x-www-form-urlencoded", some "U", some "p",
          some "AA", none, none⟩).1.status =
      (handleLogin (fun _ _ => List.replicate 20 0) (fun s => s) 0
        ⟨none, some ⟨"h", "AA"⟩, true, false, none, none,
          ⟨⟨none, ⟨200, some "kf_session=abc", "b"⟩,
            some ⟨"success", "U", "R", "totp", "js"⟩, "x",
            none, ⟨403, none, "no"⟩, none, "x", "ist"⟩,
            ⟨false, 302, none⟩, ⟨false, 302, none⟩, ⟨false, 200, none⟩⟩,
          none, false, "t", "t", "t"⟩
        ⟨"POST", some "application/x-www-form-urlencoded", some "U", some "p",
          some "AA", none, none⟩).1.status :=
  ⟨⟨by decide, by decide⟩,
    claim_C6_auth_failure_class_uniform_message_verbatim
      (fun _ _ => List.replicate 20 0) (fun _ _ => List.replicate 20 0)
      (fun s => s) (fun s => s) 0 0
      ⟨none, some ⟨"h", "AA"⟩, true, false, none, none,
        ⟨⟨none, ⟨403, none, "no"⟩, none, "x", none, ⟨200, none, ""⟩, none,
          "x", "ist"⟩,
          ⟨false, 302, none⟩, ⟨false, 302, none⟩, ⟨false, 200, none⟩⟩,
        none, false, "t", "t", "t"⟩
      ⟨none, some ⟨"h", "AA"⟩, true, false, none, none,
        ⟨⟨none, ⟨200, some "kf_session=abc", "b"⟩,
          some ⟨"success", "U", "R", "totp", "js"⟩, "x",
          none, ⟨403, none, "no"⟩, none, "x", "ist"⟩,
          ⟨false, 302, none⟩, ⟨false, 302, none⟩, ⟨false, 200, none⟩⟩,
        none, false, "t", "t", "t"⟩
      ⟨"POST", some "application/x-www-form-urlencoded", some "U", some "p",
        some "AA", none, none⟩
      ⟨"POST", some "application/x-www-form-urlencoded", some "U", some "p",
        some "AA", none, none⟩
      ⟨"h", "AA"⟩ ⟨"h", "AA"⟩ "Login failed [403]: no" "2FA failed [403]: no"
      rfl (by decide) (by decide) (by decide) (by decide) rfl rfl rfl rfl rfl
      rfl (by decide) (by decide) (by decide) (by decide)
      rfl (by decide) (by decide) (by decide) (by decide) rfl rfl rfl rfl rfl
      rfl (by decide) (by decide) (by decide) (by decide)⟩

/-! ### C4 — the freshness oracle -/

/-- A separator-free list does not split. -/
theorem splitChar_of_not_mem {sep : Char} {xs : List Char} (h : sep ∉ xs) :
    splitChar sep xs = [xs] := by
  induction xs with
  | nil => rfl
  | cons c cs ih =>
    have hc : c ≠ sep := fun hc => h (hc ▸ List.mem_cons_self c cs)
    have hcs : sep ∉ cs := fun hm => h (List.mem_cons_of_mem c hm)
    rw [splitChar, if_neg hc, ih hcs]

/-- Splitting at the first separator. -/
theorem splitChar_append {sep : Char} {xs : List Char} (ys : List Char)
    (h : sep ∉ xs) :
    splitChar sep (xs ++ sep :: ys) = xs :: splitChar sep ys := by
  induction xs with
  | nil =>
    simp only [List.nil_append]
    rw [splitChar, if_pos rfl]
  | cons c cs ih =>
    have hc : c ≠ sep := fun hc => h (hc ▸ List.mem_cons_self c cs)
    have hcs : sep ∉ cs := fun hm => h (List.mem_cons_of_mem c hm)
    rw [List.cons_append, splitChar, if_neg hc, ih hcs]

/-- A non-digit character does not appear in an all-digit list. -/
theorem not_mem_of_all_digit {l : List Char}
    (h : ∀ c ∈ l, isDigitCh c = true) {sep : Char}
    (hsep : isDigitCh sep = false) : sep ∉ l := by
  intro hm
  rw [h sep hm] at hsep
  cases hsep

/-- The padded rendering is all digits. -/
theorem pad2_all_digit (n : Nat) : ∀ c ∈ pad2 n, isDigitCh c = true := by
  unfold pad2
  split
  · intro c hc
    rcases List.mem_cons.mp hc with rfl | hc
    · decide
    · exact natChars_all_digit n c hc
  · exact natChars_all_digit n

/-- The padded rendering is never empty. -/
theorem pad2_ne_nil (n : Nat) : pad2 n ≠ [] := by
  unfold pad2
  split
  · simp
  · exact natChars_ne_nil n

/-- A digit is not JavaScript whitespace. -/
theorem isJsSpace_of_digit {c : Char} (h : isDigitCh c = true) :
    isJsSpace c = false := by
  unfold isJsSpace
  simp only [decide_eq_false_iff_not]
  rintro (rfl | rfl | rfl | rfl | rfl | rfl) <;> exact absurd h (by decide)

/-- Trimming an all-digit list changes nothing. -/
theorem jsTrimChars_of_digits {l : List Char}
    (h : ∀ c ∈ l, isDigitCh c = true) : jsTrimChars l = l := by
  unfold jsTrimChars
  have h1 : l.dropWhile isJsSpace = l := by
    cases l with
    | nil => rfl
    | cons c cs =>
      rw [List.dropWhile_cons_of_neg]
      simp [isJsSpace_of_digit (h c (List.mem_cons_self c cs))]
  rw [h1]
  have h2 : l.reverse.dropWhile isJsSpace = l.reverse := by
    cases hr : l.reverse with
    | nil => rfl
    | cons c cs =>
      rw [List.dropWhile_cons_of_neg]
      have hcm : c ∈ l := by
        rw [← List.mem_reverse, hr]
        exact List.mem_cons_self c cs
      simp [isJsSpace_of_digit (h c hcm)]
  rw [h2, List.reverse_reverse]

/-- `Number(...)` on a non-empty all-digit list is its decimal value. -/
theorem jsNumber_of_digits {l : List Char} (hne : l ≠ [])
    (h : ∀ c ∈ l, isDigitCh c = true) : jsNumber l = some (decVal l) := by
  unfold jsNumber
  rw [jsTrimChars_of_digits h]
  rw [if_neg hne, if_pos (List.all_eq_true.mpr (fun c hc => h c hc))]

/-- `Number(String(n)) = n`. -/
theorem jsNumber_natChars (n : Nat) : jsNumber (natChars n) = some n := by
  rw [jsNumber_of_digits (natChars_ne_nil n) (natChars_all_digit n),
    decVal_natChars]

/-- `decVal` ignores a leading zero. -/
theorem decVal_cons_zero (l : List Char) : decVal ('0' :: l) = decVal l := by
  simp [decVal]

/-- `Number` of the two-digit padding recovers the number. -/
theorem jsNumber_pad2 (n : Nat) : jsNumber (pad2 n) = some n := by
  rw [jsNumber_of_digits (pad2_ne_nil n) (pad2_all_digit n)]
  unfold pad2
  split
  · rw [decVal_cons_zero, decVal_natChars]
  · rw [decVal_natChars]

/-- The cutoff computed from a well-formed timestamp: the previous day's
08:30 before 08:30 local time, today's 08:30 from 08:30 on. -/
theorem getInstrumentsRefreshCutoff_eq (y mo d h mi s : Nat)
    (hv : validCivil y mo d = true) :
    getInstrumentsRefreshCutoff (formatISTTimestamp y mo d h mi s) =
      .ok (formatCutoff (if h < 8 ∨ (h = 8 ∧ mi < 30) then prevCivil y mo d
        else (y, mo, d))) := by
  have hsp : isDigitCh ' ' = false := by decide
  have hda : isDigitCh '-' = false := by decide
  have hco : isDigitCh ':' = false := by decide
  have hspda : (' ' : Char) ≠ '-' := by decide
  have hspco : (' ' : Char) ≠ ':' := by decide
  have hdaco : ('-' : Char) ≠ ':' := by decide
  have hcoda : (':' : Char) ≠ '-' := by decide
  have hy_sp := not_mem_of_all_digit (natChars_all_digit y) hsp
  have hmo_sp := not_mem_of_all_digit (pad2_all_digit mo) hsp
  have hd_sp := not_mem_of_all_digit (pad2_all_digit d) hsp
  have hh_sp := not_mem_of_all_digit (pad2_all_digit h) hsp
  have hmi_sp := not_mem_of_all_digit (pad2_all_digit mi) hsp
  have hs_sp := not_mem_of_all_digit (pad2_all_digit s) hsp
  have hy_da := not_mem_of_all_digit (natChars_all_digit y) hda
  have hmo_da := not_mem_of_all_digit (pad2_all_digit mo) hda
  have hd_da := not_mem_of_all_digit (pad2_all_digit d) hda
  have hh_co := not_mem_of_all_digit (pad2_all_digit h) hco
  have hmi_co := not_mem_of_all_digit (pad2_all_digit mi) hco
  have hs_co := not_mem_of_all_digit (pad2_all_digit s) hco
  have hdata : (formatISTTimestamp y mo d h mi s).data =
      (natChars y ++ '-' :: (pad2 mo ++ '-' :: pad2 d)) ++
        ' ' :: (pad2 h ++ ':' :: (pad2 mi ++ ':' :: pad2 s)) := by
    simp only [formatISTTimestamp]
    simp [List.append_assoc]
  have hnods : ' ' ∉ natChars y ++ '-' :: (pad2 mo ++ '-' :: pad2 d) := by
    simp only [List.mem_append, List.mem_cons, not_or]
    exact ⟨hy_sp, hspda, hmo_sp, hspda, hd_sp⟩
  have hnoT : ' ' ∉ pad2 h ++ ':' :: (pad2 mi ++ ':' :: pad2 s) := by
    simp only [List.mem_append, List.mem_cons, not_or]
    exact ⟨hh_sp, hspco, hmi_sp, hspco, hs_sp⟩
  have hsplitD : splitChar '-'
      (natChars y ++ '-' :: (pad2 mo ++ '-' :: pad2 d)) =
      [natChars y, pad2 mo, pad2 d] := by
    rw [splitChar_append _ hy_da, splitChar_append _ hmo_da,
      splitChar_of_not_mem hd_da]
  have hsplitT : splitChar ':'
      (pad2 h ++ ':' :: (pad2 mi ++ ':' :: pad2 s)) =
      [pad2 h, pad2 mi, pad2 s] := by
    rw [splitChar_append _ hh_co, splitChar_append _ hmi_co,
      splitChar_of_not_mem hs_co]
  have hDne : natChars y ++ '-' :: (pad2 mo ++ '-' :: pad2 d) ≠ [] := by
    simp [natChars_ne_nil y]
  have hTne : pad2 h ++ ':' :: (pad2 mi ++ ':' :: pad2 s) ≠ [] := by
    simp [pad2_ne_nil h]
  unfold getInstrumentsRefreshCutoff
  rw [hdata, splitChar_append _ hnods, splitChar_of_not_mem hnoT]
  simp only [List.length_cons, List.length_nil, List.get?_cons_zero,
    List.get?_cons_succ, Option.getD_some, hsplitD, hsplitT, List.map_cons,
    List.map_nil, jsNumber_natChars, jsNumber_pad2]
  rw [if_neg (by omega), if_neg (by simp [hDne, hTne]),
    if_neg (by simp), if_pos hv]
  congr 1
  congr 1
  by_cases hb : h < 8 ∨ (h = 8 ∧ mi < 30)
  · rw [if_pos hb]
    rcases hb with h8 | ⟨h8, h30⟩
    · simp [h8]
    · simp [h8, h30]
  · rw [if_neg hb]
    push_neg at hb
    obtain ⟨h8, h830⟩ := hb
    by_cases he : h = 8
    · have := h830 he
      simp [h8, he, this]
    · simp [h8, he]

/-- C4: on a well-formed current timestamp, `isRefreshRequired()` is true
exactly when the stored maximum `updated_at` is absent (`NULL`, an empty
string, or a database error) or lexicographically below the cutoff — and
the cutoff is the previous day's `"... 08:30:00"` when the current
time-of-day is strictly before 08:30, today's otherwise. -/
theorem claim_C4_freshness_oracle (y mo d h mi s : Nat)
    (latest : Option String) (dbFails : Bool)
    (hv : validCivil y mo d = true) :
    getInstrumentsRefreshCutoff (formatISTTimestamp y mo d h mi s) =
      .ok (formatCutoff (if h < 8 ∨ (h = 8 ∧ mi < 30) then prevCivil y mo d
        else (y, mo, d))) ∧
    (isRefreshRequired (formatISTTimestamp y mo d h mi s) latest dbFails =
        true ↔
      (dbFails = true ∨ latest = none ∨ latest = some "" ∨
        ∃ u, latest = some u ∧
          jsStrLt u (formatCutoff (if h < 8 ∨ (h = 8 ∧ mi < 30)
            then prevCivil y mo d else (y, mo, d))) = true)) := by
  have hc := getInstrumentsRefreshCutoff_eq y mo d h mi s hv
  refine ⟨hc, ?_⟩
  rw [isRefreshRequired, hc]
  unfold getLatestUpdateTime
  by_cases hdb : dbFails = true
  · simp [hdb]
  · have hdb' : dbFails = false := by simpa using hdb
    simp only [hdb', Bool.false_eq_true, if_false, false_or]
    cases latest with
    | none => simp
    | some u =>
      by_cases hu : u = ""
      · simp [hu]
      · dsimp only
        rw [if_neg hu]
        by_cases hlt : jsStrLt u (formatCutoff
            (if h < 8 ∨ (h = 8 ∧ mi < 30) then prevCivil y mo d
              else (y, mo, d))) = true
        · simp [hlt]
        · simp [hlt, hu]

/-- Witness for C4 at current time `2024-01-10 09:00:00`: `updated_at`
`08:29:59` is stale, `08:30:01` is fresh, and an empty table is stale. -/
theorem claim_C4_witness :
    validCivil 2024 1 10 = true ∧
    isRefreshRequired (formatISTTimestamp 2024 1 10 9 0 0)
      (some "2024-01-10 08:29:59") false = true ∧
    isRefreshRequired (formatISTTimestamp 2024 1 10 9 0 0)
      (some "2024-01-10 08:30:01") false = false ∧
    isRefreshRequired (formatISTTimestamp 2024 1 10 9 0 0) none false =
      true := by
  have h1 := claim_C4_freshness_oracle 2024 1 10 9 0 0
    (some "2024-01-10 08:29:59") false (by decide)
  have h2 := claim_C4_freshness_oracle 2024 1 10 9 0 0
    (some "2024-01-10 08:30:01") false (by decide)
  have h3 := claim_C4_freshness_oracle 2024 1 10 9 0 0 none false (by decide)
  refine ⟨by decide, ?_, ?_, ?_⟩
  · exact h1.2.mpr (Or.inr (Or.inr (Or.inr ⟨_, rfl, by decide⟩)))
  · cases hb : isRefreshRequired (formatISTTimestamp 2024 1 10 9 0 0)
      (some "2024-01-10 08:30:01") false with
    | false => rfl
    | true =>
      rcases h2.2.mp hb with hf | hf | hf | ⟨u, hu, hl⟩
      · exact absurd hf (by decide)
      · exact absurd hf (by simp)
      · exact absurd hf (by simp)
      · rw [Option.some.injEq] at hu
        subst hu
        exact absurd hl (by decide)
  · exact h3.2.mpr (Or.inr (Or.inl rfl))
